import Mathlib

/-!
# Verification development for the `github-evidence-kit` core

Shallow embedding of the evidence data model (`src/schema/events.py`,
`src/schema/observations.py`), the evidence store (`src/store.py`), the
polymorphic loader (`src/__init__.py`) and the consistency verifier
(`src/verifiers/consistency.py`) of the `mbrg/raptor` repository, together
with theorems about serialization round-trips, store upsert semantics,
filtering, and verification dispatch.

Conventions used throughout:
* Python `datetime` values are timezone-aware instants on a single UTC
  timeline; they are modelled by an integer (`DateTime := Int`).  The
  serialized form of a timestamp is ISO-8601 text, a bijective rendering of
  the instant; the JSON leaf for a timestamp therefore carries the instant
  itself.
* `None` / absent optional values are modelled by `Option`; Python
  truthiness of strings (`""` falsy) and integers (`0` falsy) is modelled
  explicitly at each use site.
* Raised exceptions of fallible operations (network clients) are modelled
  by `Except NetError`.
-/
/-- JSON values, the target of `model_dump(mode="json")` and the input of
`load_evidence_from_json`.  Objects are association lists of fields. -/
inductive Json where
  | null : Json
  | bool (b : Bool) : Json
  | int (n : Int) : Json
  | str (s : String) : Json
  | arr (elems : List Json) : Json
  | obj (fields : List (String × Json)) : Json

/-- Instants on the UTC timeline (timezone-aware `datetime`). -/
abbrev DateTime := Int

/-- Exception text of a raised network / client error. -/
abbrev NetError := String

-- =========================================================================
-- Encoding / decoding combinators (pydantic field (de)serialization)
-- =========================================================================
/-- A required string field value. -/
def decStr : Json → Except String String
  | .str s => .ok s
  | _ => .error "Input should be a valid string"

/-- A required integer field value. -/
def decInt : Json → Except String Int
  | .int n => .ok n
  | _ => .error "Input should be a valid integer"

/-- A required boolean field value. -/
def decBool : Json → Except String Bool
  | .bool b => .ok b
  | _ => .error "Input should be a valid boolean"

/-- A required timestamp field value (ISO-8601 text, modelled by the
instant it renders). -/
def decDT : Json → Except String DateTime
  | .int n => .ok n
  | _ => .error "Input should be a valid datetime"

/-- Optional-field encoding: `None` serializes to JSON `null`. -/
def encOpt (f : α → Json) : Option α → Json
  | none => .null
  | some a => f a

/-- Optional-field decoding: JSON `null` deserializes to `None`. -/
def decOpt (g : Json → Except String α) : Json → Except String (Option α)
  | .null => .ok none
  | j => (g j).map some

/-- List-field encoding. -/
def encList (f : α → Json) (xs : List α) : Json :=
  .arr (xs.map f)

/-- List-field decoding. -/
def decList (g : Json → Except String α) : Json → Except String (List α)
  | .arr xs => xs.mapM g
  | _ => .error "Input should be a valid list"

/-- Field lookup in a serialized object (Python `dict` access). -/
def Json.get (fields : List (String × Json)) (k : String) : Option Json :=
  fields.lookup k

/-- A required field: absent input is rejected (pydantic: field required). -/
def reqField (fields : List (String × Json)) (k : String)
    (g : Json → Except String α) : Except String α :=
  match Json.get fields k with
  | some v => g v
  | none => .error ("Field required: " ++ k)

/-- A field with a declared default: absent input yields the default. -/
def defField (fields : List (String × Json)) (k : String)
    (g : Json → Except String α) (d : α) : Except String α :=
  match Json.get fields k with
  | some v => g v
  | none => .ok d

-- =========================================================================
-- Enumerations (`src/schema/common.py` is not present in the sources; the
-- enums below are modelled from the spec; the `Literal[...]` unions are
-- taken verbatim from `src/schema/events.py` / `observations.py`)
-- =========================================================================
/-- Modelled from the spec: `src/schema/common.py` (absent from the
sources) declares the `EvidenceSource` enumeration; the spec names five
verification sources — primary hosting API, archive query service, web
archive, third-party report, local VCS — and the verifier dispatches on
exactly `GITHUB`, `GHARCHIVE`, `WAYBACK`, `SECURITY_VENDOR`, `GIT`. -/
inductive EvidenceSource where
  | github | gharchive | wayback | security_vendor | git
deriving DecidableEq

/-- Serialized string value of an `EvidenceSource` member. -/
def EvidenceSource.value : EvidenceSource → String
  | .github => "github"
  | .gharchive => "gharchive"
  | .wayback => "wayback"
  | .security_vendor => "security_vendor"
  | .git => "git"

/-- Python `str()` rendering of an enum member, as interpolated into error
messages (`f"...{source}"`); modelled from the spec as the qualified member
name. -/
def EvidenceSource.pyStr : EvidenceSource → String
  | .github => "EvidenceSource.GITHUB"
  | .gharchive => "EvidenceSource.GHARCHIVE"
  | .wayback => "EvidenceSource.WAYBACK"
  | .security_vendor => "EvidenceSource.SECURITY_VENDOR"
  | .git => "EvidenceSource.GIT"

def decEvidenceSource : Json → Except String EvidenceSource
  | .str "github" => .ok .github
  | .str "gharchive" => .ok .gharchive
  | .str "wayback" => .ok .wayback
  | .str "security_vendor" => .ok .security_vendor
  | .str "git" => .ok .git
  | _ => .error "Input should be a valid EvidenceSource"

/-- Modelled from the spec: ref-type enumeration `{branch, tag, repository}`
for create/delete events (`src/schema/common.py` is absent). -/
inductive RefType where
  | branch | tag | repository
deriving DecidableEq

def RefType.value : RefType → String
  | .branch => "branch"
  | .tag => "tag"
  | .repository => "repository"

def decRefType : Json → Except String RefType
  | .str "branch" => .ok .branch
  | .str "tag" => .ok .tag
  | .str "repository" => .ok .repository
  | _ => .error "Input should be a valid RefType"

/-- Modelled from the spec: the fixed enumeration of pull-request actions
(`src/schema/common.py` is absent; a representative closed member set is
used — no claim depends on the particular members). -/
inductive PRAction where
  | opened | closed | reopened | edited | synchronize
deriving DecidableEq

def PRAction.value : PRAction → String
  | .opened => "opened"
  | .closed => "closed"
  | .reopened => "reopened"
  | .edited => "edited"
  | .synchronize => "synchronize"

def decPRAction : Json → Except String PRAction
  | .str "opened" => .ok .opened
  | .str "closed" => .ok .closed
  | .str "reopened" => .ok .reopened
  | .str "edited" => .ok .edited
  | .str "synchronize" => .ok .synchronize
  | _ => .error "Input should be a valid PRAction"

/-- Modelled from the spec: the fixed enumeration of issue actions
(`src/schema/common.py` is absent; representative closed member set). -/
inductive IssueAction where
  | opened | closed | reopened | edited
deriving DecidableEq

def IssueAction.value : IssueAction → String
  | .opened => "opened"
  | .closed => "closed"
  | .reopened => "reopened"
  | .edited => "edited"

def decIssueAction : Json → Except String IssueAction
  | .str "opened" => .ok .opened
  | .str "closed" => .ok .closed
  | .str "reopened" => .ok .reopened
  | .str "edited" => .ok .edited
  | _ => .error "Input should be a valid IssueAction"

/-- Modelled from the spec: workflow-run conclusion enumeration
(`src/schema/common.py` is absent; representative closed member set). -/
inductive WorkflowConclusion where
  | success | failure | cancelled | skipped
deriving DecidableEq

def WorkflowConclusion.value : WorkflowConclusion → String
  | .success => "success"
  | .failure => "failure"
  | .cancelled => "cancelled"
  | .skipped => "skipped"

def decWorkflowConclusion : Json → Except String WorkflowConclusion
  | .str "success" => .ok .success
  | .str "failure" => .ok .failure
  | .str "cancelled" => .ok .cancelled
  | .str "skipped" => .ok .skipped
  | _ => .error "Input should be a valid WorkflowConclusion"

/-- Modelled from the spec: the typed-value kinds of an indicator of
compromise — "SHA, path, email, login, IP, domain, credential-like string,
URL, etc." (`src/schema/common.py` is absent). -/
inductive IOCType where
  | sha | path | email | login | ip | domain | credential | url | other
deriving DecidableEq

def IOCType.value : IOCType → String
  | .sha => "sha"
  | .path => "path"
  | .email => "email"
  | .login => "login"
  | .ip => "ip"
  | .domain => "domain"
  | .credential => "credential"
  | .url => "url"
  | .other => "other"

def decIOCType : Json → Except String IOCType
  | .str "sha" => .ok .sha
  | .str "path" => .ok .path
  | .str "email" => .ok .email
  | .str "login" => .ok .login
  | .str "ip" => .ok .ip
  | .str "domain" => .ok .domain
  | .str "credential" => .ok .credential
  | .str "url" => .ok .url
  | .str "other" => .ok .other
  | _ => .error "Input should be a valid IOCType"

/-- `Literal["created", "edited", "deleted"]` of `IssueCommentEvent`
(`src/schema/events.py`). -/
inductive CommentAction where
  | created | edited | deleted
deriving DecidableEq

def CommentAction.value : CommentAction → String
  | .created => "created"
  | .edited => "edited"
  | .deleted => "deleted"

def decCommentAction : Json → Except String CommentAction
  | .str "created" => .ok .created
  | .str "edited" => .ok .edited
  | .str "deleted" => .ok .deleted
  | _ => .error "Input should be a valid comment action"

/-- `Literal["requested", "completed", "in_progress"]` of
`WorkflowRunEvent` (`src/schema/events.py`). -/
inductive WorkflowRunAction where
  | requested | completed | in_progress
deriving DecidableEq

def WorkflowRunAction.value : WorkflowRunAction → String
  | .requested => "requested"
  | .completed => "completed"
  | .in_progress => "in_progress"

def decWorkflowRunAction : Json → Except String WorkflowRunAction
  | .str "requested" => .ok .requested
  | .str "completed" => .ok .completed
  | .str "in_progress" => .ok .in_progress
  | _ => .error "Input should be a valid workflow-run action"

/-- `Literal["published", "created", "deleted"]` of `ReleaseEvent`
(`src/schema/events.py`). -/
inductive ReleaseAction where
  | published | created | deleted
deriving DecidableEq

def ReleaseAction.value : ReleaseAction → String
  | .published => "published"
  | .created => "created"
  | .deleted => "deleted"

def decReleaseAction : Json → Except String ReleaseAction
  | .str "published" => .ok .published
  | .str "created" => .ok .created
  | .str "deleted" => .ok .deleted
  | _ => .error "Input should be a valid release action"

/-- `Literal["added", "removed"]` of `MemberEvent` (`src/schema/events.py`). -/
inductive MemberAction where
  | added | removed
deriving DecidableEq

def MemberAction.value : MemberAction → String
  | .added => "added"
  | .removed => "removed"

def decMemberAction : Json → Except String MemberAction
  | .str "added" => .ok .added
  | .str "removed" => .ok .removed
  | _ => .error "Input should be a valid member action"

/-- `Literal["added", "modified", "removed", "renamed"]` of `FileChange`
(`src/schema/observations.py`). -/
inductive FileStatus where
  | added | modified | removed | renamed
deriving DecidableEq

def FileStatus.value : FileStatus → String
  | .added => "added"
  | .modified => "modified"
  | .removed => "removed"
  | .renamed => "renamed"

def decFileStatus : Json → Except String FileStatus
  | .str "added" => .ok .added
  | .str "modified" => .ok .modified
  | .str "removed" => .ok .removed
  | .str "renamed" => .ok .renamed
  | _ => .error "Input should be a valid file status"

/-- `Literal["open", "closed", "merged"]` of `IssueObservation.state`
(`src/schema/observations.py`). -/
inductive IssueState where
  | «open» | closed | merged
deriving DecidableEq

def IssueState.value : IssueState → String
  | .«open» => "open"
  | .closed => "closed"
  | .merged => "merged"

def decIssueState : Json → Except String IssueState
  | .str "open" => .ok .«open»
  | .str "closed" => .ok .closed
  | .str "merged" => .ok .merged
  | _ => .error "Input should be a valid issue state"

-- =========================================================================
-- Common structures
-- =========================================================================
/-- Modelled from the spec: the actor record — "who (actor — login,
optional numeric id, bot flag)" (`src/schema/common.py` is absent). -/
structure GitHubActor where
  login : String
  id : Option Int := none
  is_bot : Bool := false
deriving DecidableEq

def GitHubActor.model_dump (a : GitHubActor) : Json :=
  .obj [("login", .str a.login), ("id", encOpt Json.int a.id),
        ("is_bot", .bool a.is_bot)]

def decGitHubActor : Json → Except String GitHubActor
  | .obj d => do
    let login ← reqField d "login" decStr
    let id ← defField d "id" (decOpt decInt) none
    let is_bot ← defField d "is_bot" decBool false
    return { login, id, is_bot }
  | _ => .error "Input should be a valid GitHubActor"

/-- Modelled from the spec: the repository record — "{owner, name,
full_name, numeric id}; full_name is canonical cross-reference key"
(`src/schema/common.py` is absent). -/
structure GitHubRepository where
  owner : String
  name : String
  full_name : String
  id : Option Int := none
deriving DecidableEq

def GitHubRepository.model_dump (r : GitHubRepository) : Json :=
  .obj [("owner", .str r.owner), ("name", .str r.name),
        ("full_name", .str r.full_name), ("id", encOpt Json.int r.id)]

def decGitHubRepository : Json → Except String GitHubRepository
  | .obj d => do
    let owner ← reqField d "owner" decStr
    let name ← reqField d "name" decStr
    let full_name ← reqField d "full_name" decStr
    let id ← defField d "id" (decOpt decInt) none
    return { owner, name, full_name, id }
  | _ => .error "Input should be a valid GitHubRepository"

/-- Modelled from the spec: the verification descriptor — "{source enum,
optional URL, optional query-table, optional query string}; always present;
tells the Verifier how to re-check the record" (`src/schema/common.py` is
absent).  The verifier reads `source`, `url` and `bigquery_table`. -/
structure VerificationInfo where
  source : EvidenceSource
  url : Option String := none
  bigquery_table : Option String := none
  query : Option String := none
deriving DecidableEq

def VerificationInfo.model_dump (v : VerificationInfo) : Json :=
  .obj [("source", .str v.source.value), ("url", encOpt Json.str v.url),
        ("bigquery_table", encOpt Json.str v.bigquery_table),
        ("query", encOpt Json.str v.query)]

def decVerificationInfo : Json → Except String VerificationInfo
  | .obj d => do
    let source ← reqField d "source" decEvidenceSource
    let url ← defField d "url" (decOpt decStr) none
    let bigquery_table ← defField d "bigquery_table" (decOpt decStr) none
    let query ← defField d "query" (decOpt decStr) none
    return { source, url, bigquery_table, query }
  | _ => .error "Input should be a valid VerificationInfo"

/-- Modelled from the spec: the verifier's result value — aggregate
pass/fail plus a deterministic error list (`src/schema/common.py` is
absent; field names `is_valid` / `errors` as used throughout
`src/verifiers/consistency.py` and `src/store.py`). -/
structure VerificationResult where
  is_valid : Bool
  errors : List String
deriving DecidableEq

/-- `CommitAuthor` (`src/schema/observations.py`). -/
structure CommitAuthor where
  name : String
  email : String
  date : DateTime
deriving DecidableEq

def CommitAuthor.model_dump (a : CommitAuthor) : Json :=
  .obj [("name", .str a.name), ("email", .str a.email),
        ("date", .int a.date)]

def decCommitAuthor : Json → Except String CommitAuthor
  | .obj d => do
    let name ← reqField d "name" decStr
    let email ← reqField d "email" decStr
    let date ← reqField d "date" decDT
    return { name, email, date }
  | _ => .error "Input should be a valid CommitAuthor"

/-- `FileChange` (`src/schema/observations.py`). -/
structure FileChange where
  filename : String
  status : FileStatus
  additions : Int := 0
  deletions : Int := 0
  patch : Option String := none
deriving DecidableEq

def FileChange.model_dump (f : FileChange) : Json :=
  .obj [("filename", .str f.filename), ("status", .str f.status.value),
        ("additions", .int f.additions), ("deletions", .int f.deletions),
        ("patch", encOpt Json.str f.patch)]

def decFileChange : Json → Except String FileChange
  | .obj d => do
    let filename ← reqField d "filename" decStr
    let status ← reqField d "status" decFileStatus
    let additions ← defField d "additions" decInt 0
    let deletions ← defField d "deletions" decInt 0
    let patch ← defField d "patch" (decOpt decStr) none
    return { filename, status, additions, deletions, patch }
  | _ => .error "Input should be a valid FileChange"

/-- `CommitInPush` (`src/schema/events.py`). -/
structure CommitInPush where
  sha : String
  message : String
  author_name : String
  author_email : String
deriving DecidableEq

def CommitInPush.model_dump (c : CommitInPush) : Json :=
  .obj [("sha", .str c.sha), ("message", .str c.message),
        ("author_name", .str c.author_name),
        ("author_email", .str c.author_email)]

def decCommitInPush : Json → Except String CommitInPush
  | .obj d => do
    let sha ← reqField d "sha" decStr
    let message ← reqField d "message" decStr
    let author_name ← reqField d "author_name" decStr
    let author_email ← reqField d "author_email" decStr
    return { sha, message, author_name, author_email }
  | _ => .error "Input should be a valid CommitInPush"

/-- `WaybackSnapshot` (`src/schema/observations.py`). -/
structure WaybackSnapshot where
  timestamp : String
  original : String
  digest : String := ""
  mimetype : String := ""
  statuscode : String := "200"
  length : String := ""
deriving DecidableEq

def WaybackSnapshot.model_dump (w : WaybackSnapshot) : Json :=
  .obj [("timestamp", .str w.timestamp), ("original", .str w.original),
        ("digest", .str w.digest), ("mimetype", .str w.mimetype),
        ("statuscode", .str w.statuscode), ("length", .str w.length)]

def decWaybackSnapshot : Json → Except String WaybackSnapshot
  | .obj d => do
    let timestamp ← reqField d "timestamp" decStr
    let original ← reqField d "original" decStr
    let digest ← defField d "digest" decStr ""
    let mimetype ← defField d "mimetype" decStr ""
    let statuscode ← defField d "statuscode" decStr "200"
    let length ← defField d "length" decStr ""
    return { timestamp, original, digest, mimetype, statuscode, length }
  | _ => .error "Input should be a valid WaybackSnapshot"

-- =========================================================================
-- Events (`src/schema/events.py`)
-- =========================================================================
/-- `Event` base model: something that happened (`src/schema/events.py`). -/
structure Event where
  evidence_id : String
  when : DateTime
  who : GitHubActor
  what : String
  repository : GitHubRepository
  verification : VerificationInfo
deriving DecidableEq

/-- Serialized base fields shared by every event variant. -/
def Event.dumpList (e : Event) : List (String × Json) :=
  [("evidence_id", .str e.evidence_id), ("when", .int e.when),
   ("who", e.who.model_dump), ("what", .str e.what),
   ("repository", e.repository.model_dump),
   ("verification", e.verification.model_dump)]

/-- Deserialize the base fields shared by every event variant. -/
def decEventBase (d : List (String × Json)) : Except String Event := do
  let evidence_id ← reqField d "evidence_id" decStr
  let when ← reqField d "when" decDT
  let who ← reqField d "who" decGitHubActor
  let what ← reqField d "what" decStr
  let repository ← reqField d "repository" decGitHubRepository
  let verification ← reqField d "verification" decVerificationInfo
  return { evidence_id, when, who, what, repository, verification }

/-- `PushEvent` (`src/schema/events.py`). -/
structure PushEvent extends Event where
  ref : String
  before_sha : String
  after_sha : String
  size : Int
  commits : List CommitInPush := []
  is_force_push : Bool := false
deriving DecidableEq

def PushEvent.dumpList (e : PushEvent) : List (String × Json) :=
  e.toEvent.dumpList ++
  [("event_type", .str "push"), ("ref", .str e.ref),
   ("before_sha", .str e.before_sha), ("after_sha", .str e.after_sha),
   ("size", .int e.size),
   ("commits", encList CommitInPush.model_dump e.commits),
   ("is_force_push", .bool e.is_force_push)]

def PushEvent.model_dump (e : PushEvent) : Json := .obj e.dumpList

def decPushEvent (d : List (String × Json)) : Except String PushEvent := do
  let toEvent ← decEventBase d
  let ref ← reqField d "ref" decStr
  let before_sha ← reqField d "before_sha" decStr
  let after_sha ← reqField d "after_sha" decStr
  let size ← reqField d "size" decInt
  let commits ← defField d "commits" (decList decCommitInPush) []
  let is_force_push ← defField d "is_force_push" decBool false
  return { toEvent, ref, before_sha, after_sha, size, commits, is_force_push }

/-- `PullRequestEvent` (`src/schema/events.py`). -/
structure PullRequestEvent extends Event where
  action : PRAction
  pr_number : Int
  pr_title : String
  pr_body : Option String := none
  head_sha : Option String := none
  merged : Bool := false
deriving DecidableEq

def PullRequestEvent.dumpList (e : PullRequestEvent) : List (String × Json) :=
  e.toEvent.dumpList ++
  [("event_type", .str "pull_request"), ("action", .str e.action.value),
   ("pr_number", .int e.pr_number), ("pr_title", .str e.pr_title),
   ("pr_body", encOpt Json.str e.pr_body),
   ("head_sha", encOpt Json.str e.head_sha), ("merged", .bool e.merged)]

def PullRequestEvent.model_dump (e : PullRequestEvent) : Json := .obj e.dumpList

def decPullRequestEvent (d : List (String × Json)) :
    Except String PullRequestEvent := do
  let toEvent ← decEventBase d
  let action ← reqField d "action" decPRAction
  let pr_number ← reqField d "pr_number" decInt
  let pr_title ← reqField d "pr_title" decStr
  let pr_body ← defField d "pr_body" (decOpt decStr) none
  let head_sha ← defField d "head_sha" (decOpt decStr) none
  let merged ← defField d "merged" decBool false
  return { toEvent, action, pr_number, pr_title, pr_body, head_sha, merged }

/-- `IssueEvent` (`src/schema/events.py`). -/
structure IssueEvent extends Event where
  action : IssueAction
  issue_number : Int
  issue_title : String
  issue_body : Option String := none
deriving DecidableEq

def IssueEvent.dumpList (e : IssueEvent) : List (String × Json) :=
  e.toEvent.dumpList ++
  [("event_type", .str "issue"), ("action", .str e.action.value),
   ("issue_number", .int e.issue_number),
   ("issue_title", .str e.issue_title),
   ("issue_body", encOpt Json.str e.issue_body)]

def IssueEvent.model_dump (e : IssueEvent) : Json := .obj e.dumpList

def decIssueEvent (d : List (String × Json)) : Except String IssueEvent := do
  let toEvent ← decEventBase d
  let action ← reqField d "action" decIssueAction
  let issue_number ← reqField d "issue_number" decInt
  let issue_title ← reqField d "issue_title" decStr
  let issue_body ← defField d "issue_body" (decOpt decStr) none
  return { toEvent, action, issue_number, issue_title, issue_body }

/-- `IssueCommentEvent` (`src/schema/events.py`). -/
structure IssueCommentEvent extends Event where
  action : CommentAction
  issue_number : Int
  comment_id : Int
  comment_body : String
deriving DecidableEq

def IssueCommentEvent.dumpList (e : IssueCommentEvent) :
    List (String × Json) :=
  e.toEvent.dumpList ++
  [("event_type", .str "issue_comment"), ("action", .str e.action.value),
   ("issue_number", .int e.issue_number), ("comment_id", .int e.comment_id),
   ("comment_body", .str e.comment_body)]

def IssueCommentEvent.model_dump (e : IssueCommentEvent) : Json :=
  .obj e.dumpList

def decIssueCommentEvent (d : List (String × Json)) :
    Except String IssueCommentEvent := do
  let toEvent ← decEventBase d
  let action ← reqField d "action" decCommentAction
  let issue_number ← reqField d "issue_number" decInt
  let comment_id ← reqField d "comment_id" decInt
  let comment_body ← reqField d "comment_body" decStr
  return { toEvent, action, issue_number, comment_id, comment_body }

/-- `CreateEvent` (`src/schema/events.py`). -/
structure CreateEvent extends Event where
  ref_type : RefType
  ref_name : String
deriving DecidableEq

def CreateEvent.dumpList (e : CreateEvent) : List (String × Json) :=
  e.toEvent.dumpList ++
  [("event_type", .str "create"), ("ref_type", .str e.ref_type.value),
   ("ref_name", .str e.ref_name)]

def CreateEvent.model_dump (e : CreateEvent) : Json := .obj e.dumpList

def decCreateEvent (d : List (String × Json)) : Except String CreateEvent := do
  let toEvent ← decEventBase d
  let ref_type ← reqField d "ref_type" decRefType
  let ref_name ← reqField d "ref_name" decStr
  return { toEvent, ref_type, ref_name }

/-- `DeleteEvent` (`src/schema/events.py`). -/
structure DeleteEvent extends Event where
  ref_type : RefType
  ref_name : String
deriving DecidableEq

def DeleteEvent.dumpList (e : DeleteEvent) : List (String × Json) :=
  e.toEvent.dumpList ++
  [("event_type", .str "delete"), ("ref_type", .str e.ref_type.value),
   ("ref_name", .str e.ref_name)]

def DeleteEvent.model_dump (e : DeleteEvent) : Json := .obj e.dumpList

def decDeleteEvent (d : List (String × Json)) : Except String DeleteEvent := do
  let toEvent ← decEventBase d
  let ref_type ← reqField d "ref_type" decRefType
  let ref_name ← reqField d "ref_name" decStr
  return { toEvent, ref_type, ref_name }

/-- `ForkEvent` (`src/schema/events.py`). -/
structure ForkEvent extends Event where
  fork_full_name : String
deriving DecidableEq

def ForkEvent.dumpList (e : ForkEvent) : List (String × Json) :=
  e.toEvent.dumpList ++
  [("event_type", .str "fork"), ("fork_full_name", .str e.fork_full_name)]

def ForkEvent.model_dump (e : ForkEvent) : Json := .obj e.dumpList

def decForkEvent (d : List (String × Json)) : Except String ForkEvent := do
  let toEvent ← decEventBase d
  let fork_full_name ← reqField d "fork_full_name" decStr
  return { toEvent, fork_full_name }

/-- `WorkflowRunEvent` (`src/schema/events.py`). -/
structure WorkflowRunEvent extends Event where
  action : WorkflowRunAction
  workflow_name : String
  head_sha : String
  conclusion : Option WorkflowConclusion := none
deriving DecidableEq

def WorkflowRunEvent.dumpList (e : WorkflowRunEvent) :
    List (String × Json) :=
  e.toEvent.dumpList ++
  [("event_type", .str "workflow_run"), ("action", .str e.action.value),
   ("workflow_name", .str e.workflow_name), ("head_sha", .str e.head_sha),
   ("conclusion", encOpt (fun c => .str c.value) e.conclusion)]

def WorkflowRunEvent.model_dump (e : WorkflowRunEvent) : Json :=
  .obj e.dumpList

def decWorkflowRunEvent (d : List (String × Json)) :
    Except String WorkflowRunEvent := do
  let toEvent ← decEventBase d
  let action ← reqField d "action" decWorkflowRunAction
  let workflow_name ← reqField d "workflow_name" decStr
  let head_sha ← reqField d "head_sha" decStr
  let conclusion ← defField d "conclusion" (decOpt decWorkflowConclusion) none
  return { toEvent, action, workflow_name, head_sha, conclusion }

/-- `ReleaseEvent` (`src/schema/events.py`). -/
structure ReleaseEvent extends Event where
  action : ReleaseAction
  tag_name : String
  release_name : Option String := none
  release_body : Option String := none
deriving DecidableEq

def ReleaseEvent.dumpList (e : ReleaseEvent) : List (String × Json) :=
  e.toEvent.dumpList ++
  [("event_type", .str "release"), ("action", .str e.action.value),
   ("tag_name", .str e.tag_name),
   ("release_name", encOpt Json.str e.release_name),
   ("release_body", encOpt Json.str e.release_body)]

def ReleaseEvent.model_dump (e : ReleaseEvent) : Json := .obj e.dumpList

def decReleaseEvent (d : List (String × Json)) :
    Except String ReleaseEvent := do
  let toEvent ← decEventBase d
  let action ← reqField d "action" decReleaseAction
  let tag_name ← reqField d "tag_name" decStr
  let release_name ← defField d "release_name" (decOpt decStr) none
  let release_body ← defField d "release_body" (decOpt decStr) none
  return { toEvent, action, tag_name, release_name, release_body }

/-- `WatchEvent` (`src/schema/events.py`). -/
structure WatchEvent extends Event where
deriving DecidableEq

def WatchEvent.dumpList (e : WatchEvent) : List (String × Json) :=
  e.toEvent.dumpList ++ [("event_type", .str "watch")]

def WatchEvent.model_dump (e : WatchEvent) : Json := .obj e.dumpList

def decWatchEvent (d : List (String × Json)) : Except String WatchEvent := do
  let toEvent ← decEventBase d
  return { toEvent }

/-- `MemberEvent` (`src/schema/events.py`). -/
structure MemberEvent extends Event where
  action : MemberAction
  member : GitHubActor
deriving DecidableEq

def MemberEvent.dumpList (e : MemberEvent) : List (String × Json) :=
  e.toEvent.dumpList ++
  [("event_type", .str "member"), ("action", .str e.action.value),
   ("member", e.member.model_dump)]

def MemberEvent.model_dump (e : MemberEvent) : Json := .obj e.dumpList

def decMemberEvent (d : List (String × Json)) : Except String MemberEvent := do
  let toEvent ← decEventBase d
  let action ← reqField d "action" decMemberAction
  let member ← reqField d "member" decGitHubActor
  return { toEvent, action, member }

/-- `PublicEvent` (`src/schema/events.py`). -/
structure PublicEvent extends Event where
deriving DecidableEq

def PublicEvent.dumpList (e : PublicEvent) : List (String × Json) :=
  e.toEvent.dumpList ++ [("event_type", .str "public")]

def PublicEvent.model_dump (e : PublicEvent) : Json := .obj e.dumpList

def decPublicEvent (d : List (String × Json)) : Except String PublicEvent := do
  let toEvent ← decEventBase d
  return { toEvent }

-- =========================================================================
-- Observations (`src/schema/observations.py`)
-- =========================================================================
/-- `Observation` base model: something we observed
(`src/schema/observations.py`). -/
structure Observation where
  evidence_id : String
  original_when : Option DateTime := none
  original_who : Option GitHubActor := none
  original_what : Option String := none
  observed_when : DateTime
  observed_by : EvidenceSource
  observed_what : String
  repository : Option GitHubRepository := none
  verification : VerificationInfo
  is_deleted : Bool := false
deriving DecidableEq

/-- Serialized base fields shared by every observation variant. -/
def Observation.dumpList (o : Observation) : List (String × Json) :=
  [("evidence_id", .str o.evidence_id),
   ("original_when", encOpt Json.int o.original_when),
   ("original_who", encOpt GitHubActor.model_dump o.original_who),
   ("original_what", encOpt Json.str o.original_what),
   ("observed_when", .int o.observed_when),
   ("observed_by", .str o.observed_by.value),
   ("observed_what", .str o.observed_what),
   ("repository", encOpt GitHubRepository.model_dump o.repository),
   ("verification", o.verification.model_dump),
   ("is_deleted", .bool o.is_deleted)]

/-- Deserialize the base fields shared by every observation variant. -/
def decObservationBase (d : List (String × Json)) :
    Except String Observation := do
  let evidence_id ← reqField d "evidence_id" decStr
  let original_when ← defField d "original_when" (decOpt decDT) none
  let original_who ← defField d "original_who" (decOpt decGitHubActor) none
  let original_what ← defField d "original_what" (decOpt decStr) none
  let observed_when ← reqField d "observed_when" decDT
  let observed_by ← reqField d "observed_by" decEvidenceSource
  let observed_what ← reqField d "observed_what" decStr
  let repository ← defField d "repository" (decOpt decGitHubRepository) none
  let verification ← reqField d "verification" decVerificationInfo
  let is_deleted ← defField d "is_deleted" decBool false
  return { evidence_id, original_when, original_who, original_what,
           observed_when, observed_by, observed_what, repository,
           verification, is_deleted }

/-- A commit hash as held by a constructed `CommitObservation`: pydantic's
`Annotated[str, Field(min_length=40, max_length=40)]` guarantees the length
of every instance's `sha` (`src/schema/observations.py`). -/
def Sha40 := { s : String // s.length = 40 }

instance : DecidableEq Sha40 := fun a b =>
  decidable_of_iff (a.val = b.val) Subtype.ext_iff.symm

/-- The pydantic validation of the `sha` field: exactly the declared
`min_length=40, max_length=40` constraints, with pydantic's error texts. -/
def decSha40 : Json → Except String Sha40
  | .str s =>
    if h : s.length = 40 then .ok ⟨s, h⟩
    else if s.length < 40 then
      .error "sha: String should have at least 40 characters"
    else
      .error "sha: String should have at most 40 characters"
  | _ => .error "sha: Input should be a valid string"

/-- `CommitObservation` (`src/schema/observations.py`). -/
structure CommitObservation extends Observation where
  sha : Sha40
  message : String
  author : CommitAuthor
  committer : CommitAuthor
  parents : List String := []
  files : List FileChange := []
  is_dangling : Bool := false
deriving DecidableEq

def CommitObservation.dumpList (o : CommitObservation) :
    List (String × Json) :=
  o.toObservation.dumpList ++
  [("observation_type", .str "commit"), ("sha", .str o.sha.val),
   ("message", .str o.message), ("author", o.author.model_dump),
   ("committer", o.committer.model_dump),
   ("parents", encList Json.str o.parents),
   ("files", encList FileChange.model_dump o.files),
   ("is_dangling", .bool o.is_dangling)]

def CommitObservation.model_dump (o : CommitObservation) : Json :=
  .obj o.dumpList

def decCommitObservation (d : List (String × Json)) :
    Except String CommitObservation := do
  let toObservation ← decObservationBase d
  let sha ← reqField d "sha" decSha40
  let message ← reqField d "message" decStr
  let author ← reqField d "author" decCommitAuthor
  let committer ← reqField d "committer" decCommitAuthor
  let parents ← defField d "parents" (decList decStr) []
  let files ← defField d "files" (decList decFileChange) []
  let is_dangling ← defField d "is_dangling" decBool false
  return { toObservation, sha, message, author, committer, parents, files,
           is_dangling }

/-- `IssueObservation` (`src/schema/observations.py`). -/
structure IssueObservation extends Observation where
  issue_number : Int
  is_pull_request : Bool := false
  title : Option String := none
  body : Option String := none
  state : Option IssueState := none
deriving DecidableEq

def IssueObservation.dumpList (o : IssueObservation) :
    List (String × Json) :=
  o.toObservation.dumpList ++
  [("observation_type", .str "issue"), ("issue_number", .int o.issue_number),
   ("is_pull_request", .bool o.is_pull_request),
   ("title", encOpt Json.str o.title), ("body", encOpt Json.str o.body),
   ("state", encOpt (fun s => .str s.value) o.state)]

def IssueObservation.model_dump (o : IssueObservation) : Json :=
  .obj o.dumpList

def decIssueObservation (d : List (String × Json)) :
    Except String IssueObservation := do
  let toObservation ← decObservationBase d
  let issue_number ← reqField d "issue_number" decInt
  let is_pull_request ← defField d "is_pull_request" decBool false
  let title ← defField d "title" (decOpt decStr) none
  let body ← defField d "body" (decOpt decStr) none
  let state ← defField d "state" (decOpt decIssueState) none
  return { toObservation, issue_number, is_pull_request, title, body, state }

/-- `FileObservation` (`src/schema/observations.py`). -/
structure FileObservation extends Observation where
  file_path : String
  branch : Option String := none
  content : String := ""
  content_hash : Option String := none
  size_bytes : Int := 0
deriving DecidableEq

def FileObservation.dumpList (o : FileObservation) : List (String × Json) :=
  o.toObservation.dumpList ++
  [("observation_type", .str "file"), ("file_path", .str o.file_path),
   ("branch", encOpt Json.str o.branch), ("content", .str o.content),
   ("content_hash", encOpt Json.str o.content_hash),
   ("size_bytes", .int o.size_bytes)]

def FileObservation.model_dump (o : FileObservation) : Json := .obj o.dumpList

def decFileObservation (d : List (String × Json)) :
    Except String FileObservation := do
  let toObservation ← decObservationBase d
  let file_path ← reqField d "file_path" decStr
  let branch ← defField d "branch" (decOpt decStr) none
  let content ← defField d "content" decStr ""
  let content_hash ← defField d "content_hash" (decOpt decStr) none
  let size_bytes ← defField d "size_bytes" decInt 0
  return { toObservation, file_path, branch, content, content_hash,
           size_bytes }

/-- `ForkObservation` (`src/schema/observations.py`). -/
structure ForkObservation extends Observation where
  fork_full_name : String
  parent_full_name : String := ""
  fork_owner : Option String := none
  fork_repo : Option String := none
  forked_at : Option DateTime := none
deriving DecidableEq

def ForkObservation.dumpList (o : ForkObservation) : List (String × Json) :=
  o.toObservation.dumpList ++
  [("observation_type", .str "fork"),
   ("fork_full_name", .str o.fork_full_name),
   ("parent_full_name", .str o.parent_full_name),
   ("fork_owner", encOpt Json.str o.fork_owner),
   ("fork_repo", encOpt Json.str o.fork_repo),
   ("forked_at", encOpt Json.int o.forked_at)]

def ForkObservation.model_dump (o : ForkObservation) : Json := .obj o.dumpList

def decForkObservation (d : List (String × Json)) :
    Except String ForkObservation := do
  let toObservation ← decObservationBase d
  let fork_full_name ← reqField d "fork_full_name" decStr
  let parent_full_name ← defField d "parent_full_name" decStr ""
  let fork_owner ← defField d "fork_owner" (decOpt decStr) none
  let fork_repo ← defField d "fork_repo" (decOpt decStr) none
  let forked_at ← defField d "forked_at" (decOpt decDT) none
  return { toObservation, fork_full_name, parent_full_name, fork_owner,
           fork_repo, forked_at }

/-- `BranchObservation` (`src/schema/observations.py`). -/
structure BranchObservation extends Observation where
  branch_name : String
  head_sha : Option String := none
  «protected» : Bool := false
deriving DecidableEq

def BranchObservation.dumpList (o : BranchObservation) :
    List (String × Json) :=
  o.toObservation.dumpList ++
  [("observation_type", .str "branch"), ("branch_name", .str o.branch_name),
   ("head_sha", encOpt Json.str o.head_sha),
   ("protected", .bool o.«protected»)]

def BranchObservation.model_dump (o : BranchObservation) : Json :=
  .obj o.dumpList

def decBranchObservation (d : List (String × Json)) :
    Except String BranchObservation := do
  let toObservation ← decObservationBase d
  let branch_name ← reqField d "branch_name" decStr
  let head_sha ← defField d "head_sha" (decOpt decStr) none
  let «protected» ← defField d "protected" decBool false
  return { toObservation, branch_name, head_sha, «protected» }

/-- `TagObservation` (`src/schema/observations.py`). -/
structure TagObservation extends Observation where
  tag_name : String
  target_sha : Option String := none
deriving DecidableEq

def TagObservation.dumpList (o : TagObservation) : List (String × Json) :=
  o.toObservation.dumpList ++
  [("observation_type", .str "tag"), ("tag_name", .str o.tag_name),
   ("target_sha", encOpt Json.str o.target_sha)]

def TagObservation.model_dump (o : TagObservation) : Json := .obj o.dumpList

def decTagObservation (d : List (String × Json)) :
    Except String TagObservation := do
  let toObservation ← decObservationBase d
  let tag_name ← reqField d "tag_name" decStr
  let target_sha ← defField d "target_sha" (decOpt decStr) none
  return { toObservation, tag_name, target_sha }

/-- `ReleaseObservation` (`src/schema/observations.py`). -/
structure ReleaseObservation extends Observation where
  tag_name : String
  release_name : Option String := none
  release_body : Option String := none
  created_at : Option DateTime := none
  published_at : Option DateTime := none
  is_prerelease : Bool := false
  is_draft : Bool := false
deriving DecidableEq

def ReleaseObservation.dumpList (o : ReleaseObservation) :
    List (String × Json) :=
  o.toObservation.dumpList ++
  [("observation_type", .str "release"), ("tag_name", .str o.tag_name),
   ("release_name", encOpt Json.str o.release_name),
   ("release_body", encOpt Json.str o.release_body),
   ("created_at", encOpt Json.int o.created_at),
   ("published_at", encOpt Json.int o.published_at),
   ("is_prerelease", .bool o.is_prerelease), ("is_draft", .bool o.is_draft)]

def ReleaseObservation.model_dump (o : ReleaseObservation) : Json :=
  .obj o.dumpList

def decReleaseObservation (d : List (String × Json)) :
    Except String ReleaseObservation := do
  let toObservation ← decObservationBase d
  let tag_name ← reqField d "tag_name" decStr
  let release_name ← defField d "release_name" (decOpt decStr) none
  let release_body ← defField d "release_body" (decOpt decStr) none
  let created_at ← defField d "created_at" (decOpt decDT) none
  let published_at ← defField d "published_at" (decOpt decDT) none
  let is_prerelease ← defField d "is_prerelease" decBool false
  let is_draft ← defField d "is_draft" decBool false
  return { toObservation, tag_name, release_name, release_body, created_at,
           published_at, is_prerelease, is_draft }

/-- `SnapshotObservation` (`src/schema/observations.py`). -/
structure SnapshotObservation extends Observation where
  original_url : String
  snapshots : List WaybackSnapshot
  total_snapshots : Int
deriving DecidableEq

def SnapshotObservation.dumpList (o : SnapshotObservation) :
    List (String × Json) :=
  o.toObservation.dumpList ++
  [("observation_type", .str "snapshot"),
   ("original_url", .str o.original_url),
   ("snapshots", encList WaybackSnapshot.model_dump o.snapshots),
   ("total_snapshots", .int o.total_snapshots)]

def SnapshotObservation.model_dump (o : SnapshotObservation) : Json :=
  .obj o.dumpList

def decSnapshotObservation (d : List (String × Json)) :
    Except String SnapshotObservation := do
  let toObservation ← decObservationBase d
  let original_url ← reqField d "original_url" decStr
  let snapshots ← reqField d "snapshots" (decList decWaybackSnapshot)
  let total_snapshots ← reqField d "total_snapshots" decInt
  return { toObservation, original_url, snapshots, total_snapshots }

/-- `IOC` — indicator of compromise (`src/schema/observations.py`). -/
structure IOC extends Observation where
  ioc_type : IOCType
  value : String
  first_seen : Option DateTime := none
  last_seen : Option DateTime := none
  extracted_from : Option String := none
deriving DecidableEq

def IOC.dumpList (o : IOC) : List (String × Json) :=
  o.toObservation.dumpList ++
  [("observation_type", .str "ioc"), ("ioc_type", .str o.ioc_type.value),
   ("value", .str o.value), ("first_seen", encOpt Json.int o.first_seen),
   ("last_seen", encOpt Json.int o.last_seen),
   ("extracted_from", encOpt Json.str o.extracted_from)]

def IOC.model_dump (o : IOC) : Json := .obj o.dumpList

def decIOC (d : List (String × Json)) : Except String IOC := do
  let toObservation ← decObservationBase d
  let ioc_type ← reqField d "ioc_type" decIOCType
  let value ← reqField d "value" decStr
  let first_seen ← defField d "first_seen" (decOpt decDT) none
  let last_seen ← defField d "last_seen" (decOpt decDT) none
  let extracted_from ← defField d "extracted_from" (decOpt decStr) none
  return { toObservation, ioc_type, value, first_seen, last_seen,
           extracted_from }

/-- `ArticleObservation` (`src/schema/observations.py`). -/
structure ArticleObservation extends Observation where
  url : String
  title : String
  author : Option String := none
  published_date : Option DateTime := none
  source_name : Option String := none
  summary : Option String := none
  evidence_ids : List String := []
deriving DecidableEq

def ArticleObservation.dumpList (o : ArticleObservation) :
    List (String × Json) :=
  o.toObservation.dumpList ++
  [("observation_type", .str "article"), ("url", .str o.url),
   ("title", .str o.title), ("author", encOpt Json.str o.author),
   ("published_date", encOpt Json.int o.published_date),
   ("source_name", encOpt Json.str o.source_name),
   ("summary", encOpt Json.str o.summary),
   ("evidence_ids", encList Json.str o.evidence_ids)]

def ArticleObservation.model_dump (o : ArticleObservation) : Json :=
  .obj o.dumpList

def decArticleObservation (d : List (String × Json)) :
    Except String ArticleObservation := do
  let toObservation ← decObservationBase d
  let url ← reqField d "url" decStr
  let title ← reqField d "title" decStr
  let author ← defField d "author" (decOpt decStr) none
  let published_date ← defField d "published_date" (decOpt decDT) none
  let source_name ← defField d "source_name" (decOpt decStr) none
  let summary ← defField d "summary" (decOpt decStr) none
  let evidence_ids ← defField d "evidence_ids" (decList decStr) []
  return { toObservation, url, title, author, published_date, source_name,
           summary, evidence_ids }

-- =========================================================================
-- The tagged unions and the polymorphic loader (`src/__init__.py`)
-- =========================================================================
/-- `AnyEvent` — the closed union of event variants
(`src/schema/events.py`). -/
inductive AnyEvent where
  | push (e : PushEvent)
  | pull_request (e : PullRequestEvent)
  | issue (e : IssueEvent)
  | issue_comment (e : IssueCommentEvent)
  | create (e : CreateEvent)
  | delete (e : DeleteEvent)
  | fork (e : ForkEvent)
  | workflow_run (e : WorkflowRunEvent)
  | release (e : ReleaseEvent)
  | watch (e : WatchEvent)
  | member (e : MemberEvent)
  | «public» (e : PublicEvent)
deriving DecidableEq

/-- The `Event` base-model part shared by every variant. -/
def AnyEvent.base : AnyEvent → Event
  | .push e | .pull_request e | .issue e | .issue_comment e | .create e
  | .delete e | .fork e | .workflow_run e | .release e | .watch e
  | .member e | .«public» e => e.toEvent

/-- The `event_type` discriminator value of a variant. -/
def AnyEvent.event_type : AnyEvent → String
  | .push _ => "push"
  | .pull_request _ => "pull_request"
  | .issue _ => "issue"
  | .issue_comment _ => "issue_comment"
  | .create _ => "create"
  | .delete _ => "delete"
  | .fork _ => "fork"
  | .workflow_run _ => "workflow_run"
  | .release _ => "release"
  | .watch _ => "watch"
  | .member _ => "member"
  | .«public» _ => "public"

/-- Serialized form of an event (`model_dump(mode="json")`), as the field
list of the produced object. -/
def AnyEvent.dumpDict : AnyEvent → List (String × Json)
  | .push e => e.dumpList
  | .pull_request e => e.dumpList
  | .issue e => e.dumpList
  | .issue_comment e => e.dumpList
  | .create e => e.dumpList
  | .delete e => e.dumpList
  | .fork e => e.dumpList
  | .workflow_run e => e.dumpList
  | .release e => e.dumpList
  | .watch e => e.dumpList
  | .member e => e.dumpList
  | .«public» e => e.dumpList

/-- `AnyObservation` — the closed union of observation variants
(`src/schema/observations.py`). -/
inductive AnyObservation where
  | commit (o : CommitObservation)
  | issue (o : IssueObservation)
  | file (o : FileObservation)
  | fork (o : ForkObservation)
  | branch (o : BranchObservation)
  | tag (o : TagObservation)
  | release (o : ReleaseObservation)
  | snapshot (o : SnapshotObservation)
  | ioc (o : IOC)
  | article (o : ArticleObservation)
deriving DecidableEq

/-- The `Observation` base-model part shared by every variant. -/
def AnyObservation.base : AnyObservation → Observation
  | .commit o | .issue o | .file o | .fork o | .branch o | .tag o
  | .release o | .snapshot o | .ioc o | .article o => o.toObservation

/-- The `observation_type` discriminator value of a variant. -/
def AnyObservation.observation_type : AnyObservation → String
  | .commit _ => "commit"
  | .issue _ => "issue"
  | .file _ => "file"
  | .fork _ => "fork"
  | .branch _ => "branch"
  | .tag _ => "tag"
  | .release _ => "release"
  | .snapshot _ => "snapshot"
  | .ioc _ => "ioc"
  | .article _ => "article"

/-- Serialized form of an observation (`model_dump(mode="json")`), as the
field list of the produced object. -/
def AnyObservation.dumpDict : AnyObservation → List (String × Json)
  | .commit o => o.dumpList
  | .issue o => o.dumpList
  | .file o => o.dumpList
  | .fork o => o.dumpList
  | .branch o => o.dumpList
  | .tag o => o.dumpList
  | .release o => o.dumpList
  | .snapshot o => o.dumpList
  | .ioc o => o.dumpList
  | .article o => o.dumpList

/-- `AnyEvidence = AnyEvent | AnyObservation` (`src/__init__.py`). -/
inductive AnyEvidence where
  | event (e : AnyEvent)
  | observation (o : AnyObservation)
deriving DecidableEq

/-- `evidence_id` of either root kind. -/
def AnyEvidence.evidence_id : AnyEvidence → String
  | .event e => e.base.evidence_id
  | .observation o => o.base.evidence_id

/-- `verification` of either root kind. -/
def AnyEvidence.verification : AnyEvidence → VerificationInfo
  | .event e => e.base.verification
  | .observation o => o.base.verification

/-- Python `getattr(e, "event_type", None)`: present exactly on events. -/
def AnyEvidence.event_type_attr : AnyEvidence → Option String
  | .event e => some e.event_type
  | .observation _ => none

/-- Python `getattr(e, "observation_type", None)`: present exactly on
observations. -/
def AnyEvidence.observation_type_attr : AnyEvidence → Option String
  | .event _ => none
  | .observation o => some o.observation_type

/-- Python `getattr(e, "repository", None)`: required on events, optional
on observations. -/
def AnyEvidence.repository_attr : AnyEvidence → Option GitHubRepository
  | .event e => some e.base.repository
  | .observation o => o.base.repository

/-- Serialized form of an evidence record, as the field list of the
produced object. -/
def AnyEvidence.dumpDict : AnyEvidence → List (String × Json)
  | .event e => e.dumpDict
  | .observation o => o.dumpDict

/-- `model_dump(mode="json")` of an evidence record. -/
def AnyEvidence.model_dump (e : AnyEvidence) : Json := .obj e.dumpDict

/-- Python `str()` of a JSON value, as interpolated into the loader's
error messages.  Container values are abbreviated (no claim depends on
their rendering). -/
def Json.pyRender : Json → String
  | .null => "None"
  | .bool true => "True"
  | .bool false => "False"
  | .int n => toString n
  | .str s => s
  | .arr _ => "list"
  | .obj _ => "dict"

/-- The pydantic discriminated union `_EventUnion` with
`Field(discriminator="event_type")` (`src/__init__.py`): validation
dispatches on the discriminator value and fails for an unrecognized or
non-string value. -/
def eventAdapterValidate (d : List (String × Json)) :
    Except String AnyEvent :=
  match Json.get d "event_type" with
  | some (.str t) =>
    if t = "push" then (decPushEvent d).map .push
    else if t = "pull_request" then (decPullRequestEvent d).map .pull_request
    else if t = "issue" then (decIssueEvent d).map .issue
    else if t = "issue_comment" then
      (decIssueCommentEvent d).map .issue_comment
    else if t = "create" then (decCreateEvent d).map .create
    else if t = "delete" then (decDeleteEvent d).map .delete
    else if t = "fork" then (decForkEvent d).map .fork
    else if t = "workflow_run" then (decWorkflowRunEvent d).map .workflow_run
    else if t = "release" then (decReleaseEvent d).map .release
    else if t = "watch" then (decWatchEvent d).map .watch
    else if t = "member" then (decMemberEvent d).map .member
    else if t = "public" then (decPublicEvent d).map .«public»
    else .error "Input tag does not match any of the expected tags"
  | _ => .error "Input tag does not match any of the expected tags"

/-- The pydantic discriminated union `_ObservationUnion` with
`Field(discriminator="observation_type")` (`src/__init__.py`). -/
def observationAdapterValidate (d : List (String × Json)) :
    Except String AnyObservation :=
  match Json.get d "observation_type" with
  | some (.str t) =>
    if t = "commit" then (decCommitObservation d).map .commit
    else if t = "issue" then (decIssueObservation d).map .issue
    else if t = "file" then (decFileObservation d).map .file
    else if t = "fork" then (decForkObservation d).map .fork
    else if t = "branch" then (decBranchObservation d).map .branch
    else if t = "tag" then (decTagObservation d).map .tag
    else if t = "release" then (decReleaseObservation d).map .release
    else if t = "snapshot" then (decSnapshotObservation d).map .snapshot
    else if t = "ioc" then (decIOC d).map .ioc
    else if t = "article" then (decArticleObservation d).map .article
    else .error "Input tag does not match any of the expected tags"
  | _ => .error "Input tag does not match any of the expected tags"

/-- `load_evidence_from_json` (`src/__init__.py`): dispatch on the presence
of the `event_type` / `observation_type` discriminator key; any validation
failure is re-raised as a `ValueError` naming the discriminator value;
input without either key is a hard error. -/
def load_evidence_from_json (data : List (String × Json)) :
    Except String AnyEvidence :=
  match Json.get data "event_type" with
  | some v =>
    match eventAdapterValidate data with
    | .ok e => .ok (.event e)
    | .error _ => .error ("Unknown event_type: " ++ v.pyRender)
  | none =>
    match Json.get data "observation_type" with
    | some v =>
      match observationAdapterValidate data with
      | .ok o => .ok (.observation o)
      | .error _ => .error ("Unknown observation_type: " ++ v.pyRender)
    | none => .error "Data must contain 'event_type' or 'observation_type' field"

-- =========================================================================
-- Evidence store (`src/store.py`)
-- =========================================================================
/-- Python `dict` assignment `d[k] = v`: replaces the value in place when
the key is present (keeping its position), appends otherwise. -/
def dictInsert (k : String) (v : α) : List (String × α) → List (String × α)
  | [] => [(k, v)]
  | (k', v') :: rest =>
    if k' = k then (k, v) :: rest else (k', v') :: dictInsert k v rest

/-- Python `del d[k]`. -/
def dictErase (k : String) : List (String × α) → List (String × α)
  | [] => []
  | (k', v') :: rest =>
    if k' = k then rest else (k', v') :: dictErase k rest

/-- Python `d.get(k)` / `k in d`. -/
def dictGet (k : String) (d : List (String × α)) : Option α :=
  d.lookup k

/-- `EvidenceStore` (`src/store.py`): the record list `_evidence` and the
id index `_by_id` (a Python dict, modelled as an insertion-ordered
association list). -/
structure EvidenceStore where
  _evidence : List AnyEvidence
  _by_id : List (String × AnyEvidence)

/-- `EvidenceStore(evidence)`: the id index is comprehended from the given
record list (`src/store.py`, `__init__`). -/
def EvidenceStore.ofList (evidence : List AnyEvidence) : EvidenceStore :=
  { _evidence := evidence,
    _by_id := evidence.foldl (fun d e => dictInsert e.evidence_id e d) [] }

/-- `EvidenceStore()` with no argument. -/
def EvidenceStore.empty : EvidenceStore := EvidenceStore.ofList []

/-- `EvidenceStore.add` (`src/store.py`): replaces any existing record with
the same id, then appends. -/
def EvidenceStore.add (s : EvidenceStore) (evidence : AnyEvidence) :
    EvidenceStore :=
  let evList :=
    if (dictGet evidence.evidence_id s._by_id).isSome then
      s._evidence.filter (fun e => e.evidence_id ≠ evidence.evidence_id)
    else s._evidence
  { _evidence := evList ++ [evidence],
    _by_id := dictInsert evidence.evidence_id evidence s._by_id }

/-- `EvidenceStore.add_all` (`src/store.py`). -/
def EvidenceStore.add_all (s : EvidenceStore)
    (evidence_list : List AnyEvidence) : EvidenceStore :=
  evidence_list.foldl EvidenceStore.add s

/-- `EvidenceStore.get` (`src/store.py`). -/
def EvidenceStore.get (s : EvidenceStore) (evidence_id : String) :
    Option AnyEvidence :=
  dictGet evidence_id s._by_id

/-- `EvidenceStore.remove` (`src/store.py`): the store after removal,
paired with the returned boolean. -/
def EvidenceStore.remove (s : EvidenceStore) (evidence_id : String) :
    EvidenceStore × Bool :=
  if (dictGet evidence_id s._by_id).isSome then
    ({ _evidence := s._evidence.filter (fun e => e.evidence_id ≠ evidence_id),
       _by_id := dictErase evidence_id s._by_id }, true)
  else (s, false)

/-- `EvidenceStore.clear` (`src/store.py`). -/
def EvidenceStore.clear (_ : EvidenceStore) : EvidenceStore :=
  { _evidence := [], _by_id := [] }

/-- `len(store)` (`src/store.py`). -/
def EvidenceStore.len (s : EvidenceStore) : Nat := s._evidence.length

/-- `evidence_id in store` (`src/store.py`, `__contains__`). -/
def EvidenceStore.contains (s : EvidenceStore) (evidence_id : String) :
    Bool :=
  (dictGet evidence_id s._by_id).isSome

/-- `EvidenceStore.merge` (`src/store.py`): upserts every record of the
other store, in its iteration order. -/
def EvidenceStore.merge (s other : EvidenceStore) : EvidenceStore :=
  s.add_all other._evidence

/-- `EvidenceStore._get_timestamp` (`src/store.py`): `when` for events
(the only root kind with a `when` attribute); otherwise `original_when`
when set (datetimes are always truthy), else `observed_when`. -/
def EvidenceStore.get_timestamp : AnyEvidence → Option DateTime
  | .event e => some e.base.when
  | .observation o =>
    match o.base.original_when with
    | some t => some t
    | none => some o.base.observed_when

/-- The keyword criteria of `EvidenceStore.filter` (`src/store.py`).  The
`source` criterion is modelled as the enum member (the string form is
converted to the enum before comparison in the code). -/
structure FilterCriteria where
  event_type : Option String := none
  observation_type : Option String := none
  source : Option EvidenceSource := none
  repo : Option String := none
  after : Option DateTime := none
  before : Option DateTime := none
  predicate : Option (AnyEvidence → Bool) := none

/-- Python truthiness of an optional string (`None` and `""` falsy). -/
def strTruthy : Option String → Bool
  | none => false
  | some s => s ≠ ""

/-- The inner `matches` of `EvidenceStore.filter` (`src/store.py`). -/
def FilterCriteria.matches (c : FilterCriteria) (e : AnyEvidence) : Bool :=
  if strTruthy c.event_type ∧ e.event_type_attr ≠ c.event_type then false
  else if strTruthy c.observation_type ∧
      e.observation_type_attr ≠ c.observation_type then false
  else if c.source.isSome ∧ some e.verification.source ≠ c.source then false
  else if strTruthy c.repo ∧
      (e.repository_attr).map (·.full_name) ≠ c.repo then false
  else
    match EvidenceStore.get_timestamp e with
    | some ts =>
      if c.after.isSome ∧ decide (ts < c.after.getD ts) then false
      else if c.before.isSome ∧ decide (c.before.getD ts < ts) then false
      else match c.predicate with
        | some p => p e
        | none => true
    | none =>
      match c.predicate with
      | some p => p e
      | none => true

/-- `EvidenceStore.filter` (`src/store.py`). -/
def EvidenceStore.filter (s : EvidenceStore) (c : FilterCriteria) :
    List AnyEvidence :=
  s._evidence.filter c.matches

/-- `EvidenceStore.to_json` (`src/store.py`): the serialized array of
record objects (indentation is presentation only and not modelled). -/
def EvidenceStore.to_json (s : EvidenceStore) : Json :=
  .arr (s._evidence.map AnyEvidence.model_dump)

/-- `EvidenceStore.from_json` (`src/store.py`): parse each array item with
`load_evidence_from_json` and rebuild the store via the constructor. -/
def EvidenceStore.from_json : Json → Except String EvidenceStore
  | .arr items => do
    let evidence ← items.mapM (fun item =>
      match item with
      | .obj d => load_evidence_from_json d
      | _ => .error "Data must contain 'event_type' or 'observation_type' field")
    return EvidenceStore.ofList evidence
  | _ => .error "Input should be a valid list"

-- =========================================================================
-- Consistency verifier (`src/verifiers/consistency.py`)
-- =========================================================================
/-- `dict.get(k)` on a fetched JSON response (no default). -/
def Json.getField (j : Json) (k : String) : Option Json :=
  match j with
  | .obj d => d.lookup k
  | _ => none

/-- `dict.get(k, d)` on a fetched JSON response with a default. -/
def Json.getD (j : Json) (k : String) (d : Json) : Json :=
  (j.getField k).getD d

/-- Python truthiness of a JSON value. -/
def Json.truthy : Json → Bool
  | .null => false
  | .bool b => b
  | .int n => n ≠ 0
  | .str s => s ≠ ""
  | .arr xs => ¬xs.isEmpty
  | .obj d => ¬d.isEmpty

/-- Python truthiness of an optional JSON value (`dict.get` result). -/
def optTruthy : Option Json → Bool
  | none => false
  | some j => j.truthy

/-- Python `x == s` where `x` is a fetched value (or `None`) and `s` a
string: equal only when `x` is that string. -/
def pyEqStr : Option Json → String → Bool
  | some (.str t), s => t = s
  | _, _ => false

/-- Python `x == n` where `x` is a fetched value (or `None`) and `n` an
integer. -/
def pyEqInt : Option Json → Int → Bool
  | some (.int m), n => m = n
  | _, _ => false

/-- Python `s == j` where `s` is a string and `j` a JSON value. -/
def pyStrEqJson (s : String) : Json → Bool
  | .str t => s = t
  | _ => false

/-- Python `str()` of a fetched value (or `None`), for error messages. -/
def pyRenderOpt : Option Json → String
  | none => "None"
  | some j => j.pyRender

/-- Python `needle in hay` on strings. -/
def strContainsSub (hay needle : String) : Bool :=
  needle = "" || (hay.splitOn needle).length ≥ 2

/-- The primary-API client's read contract (`src/clients/github.py`,
consumed opaque): each call returns the parsed response or raises. -/
structure GitHubClient where
  get_commit : String → String → String → Except NetError Json
  get_issue : String → String → Int → Except NetError Json
  get_pull_request : String → String → Int → Except NetError Json
  get_file : String → String → String → String → Except NetError Json
  get_branch : String → String → String → Except NetError Json
  get_tag : String → String → String → Except NetError Json
  get_release : String → String → String → Except NetError Json

/-- The archive-query client's read contract (`src/clients/gharchive.py`,
consumed opaque): credential availability (`_get_client` succeeding) and
the row query `query_events(repo, actor, from_date)`. -/
structure GHArchiveClient where
  has_credentials : Bool
  query_events : Option String → Option String → String →
    Except NetError (List Json)

/-- Module-level runtime dependencies of the verifier, modelled as explicit
oracles: `requests.get(url)` followed by `raise_for_status` (yielding the
response text or a raised `RequestException`), `hashlib.sha256(...).
hexdigest()`, `base64.b64decode(...).decode("utf-8", errors="replace")`,
and `datetime.strftime("%Y%m%d%H%M")`. -/
structure PyRuntime where
  requests_get : String → Except NetError String
  sha256_hexdigest : String → String
  b64decode_utf8 : String → String
  strftime_ymdhm : DateTime → String

/-- `ConsistencyVerifier` (`src/verifiers/consistency.py`) with its two
injected clients, plus the module-level runtime oracles. -/
structure ConsistencyVerifier where
  github_client : GitHubClient
  gharchive_client : GHArchiveClient
  runtime : PyRuntime

namespace ConsistencyVerifier

/-- `_get_repo_info`. -/
def _get_repo_info (obs : Observation) : Option (String × String) :=
  obs.repository.map (fun r => (r.owner, r.name))

/-- `_verify_commit`: re-fetch by SHA and compare SHA, message and author
name; client exceptions propagate. -/
def _verify_commit (v : ConsistencyVerifier) (obs : CommitObservation) :
    Except NetError VerificationResult := do
  match _get_repo_info obs.toObservation with
  | none => return ⟨false, ["No repository specified"]⟩
  | some (owner, name) =>
    if obs.sha.val = "" then return ⟨false, ["No SHA specified"]⟩
    else
      let data ← v.github_client.get_commit owner name obs.sha.val
      let commit := data.getD "commit" (.obj [])
      let errors :=
        (if ¬ pyEqStr (data.getField "sha") obs.sha.val then
          ["SHA mismatch: expected " ++ obs.sha.val ++ ", got " ++
            pyRenderOpt (data.getField "sha")]
        else []) ++
        (if ¬ pyStrEqJson obs.message (commit.getD "message" (.str "")) then
          ["Message mismatch"]
        else []) ++
        (let actual := (commit.getD "author" (.obj [])).getField "name"
        if ¬ pyEqStr actual obs.author.name then
          ["Author mismatch: expected " ++ obs.author.name ++ ", got " ++
            pyRenderOpt actual]
        else [])
      return ⟨errors.isEmpty, errors⟩

/-- `_verify_issue`: re-fetch by number (as PR when `is_pull_request`);
compare number, recorded title, and resolved state (`merged` overrides). -/
def _verify_issue (v : ConsistencyVerifier) (obs : IssueObservation) :
    Except NetError VerificationResult := do
  match _get_repo_info obs.toObservation with
  | none => return ⟨false, ["No repository specified"]⟩
  | some (owner, name) =>
    if obs.issue_number = 0 then
      return ⟨false, ["No issue number specified"]⟩
    else
      let data ←
        if obs.is_pull_request then
          v.github_client.get_pull_request owner name obs.issue_number
        else v.github_client.get_issue owner name obs.issue_number
      let errors :=
        (if ¬ pyEqInt (data.getField "number") obs.issue_number then
          ["Number mismatch: expected " ++ toString obs.issue_number ++
            ", got " ++ pyRenderOpt (data.getField "number")]
        else []) ++
        (match obs.title with
        | some t =>
          if t ≠ "" ∧ ¬ pyEqStr (data.getField "title") t then
            ["Title mismatch"]
          else []
        | none => []) ++
        (match obs.state with
        | some st =>
          let actual : Option Json :=
            if optTruthy (data.getField "merged") then some (.str "merged")
            else data.getField "state"
          if ¬ pyEqStr actual st.value then
            ["State mismatch: expected " ++ st.value ++ ", got " ++
              pyRenderOpt actual]
          else []
        | none => [])
      return ⟨errors.isEmpty, errors⟩

/-- `_verify_file`: re-fetch content at the recorded ref, recompute the
SHA-256 digest, compare to the stored digest. -/
def _verify_file (v : ConsistencyVerifier) (obs : FileObservation) :
    Except NetError VerificationResult := do
  match _get_repo_info obs.toObservation with
  | none => return ⟨false, ["No repository specified"]⟩
  | some (owner, name) =>
    if obs.file_path = "" then return ⟨false, ["No file path specified"]⟩
    else
      let ref :=
        match obs.branch with
        | some b => if b ≠ "" then b else "HEAD"
        | none => "HEAD"
      let data ← v.github_client.get_file owner name obs.file_path ref
      match obs.content_hash with
      | some h =>
        if h ≠ "" then do
          let raw := data.getD "content" (.str "")
          let content ←
            match raw with
            | .str s =>
              pure (if s = "" then "" else v.runtime.b64decode_utf8 s)
            | j =>
              if j.truthy then
                Except.error
                  "TypeError: argument should be a bytes-like object or ASCII string"
              else pure ""
          if h ≠ v.runtime.sha256_hexdigest content then
            return ⟨false, ["Content hash mismatch"]⟩
          else return ⟨true, []⟩
        else return ⟨true, []⟩
      | none => return ⟨true, []⟩

/-- `_verify_branch`: re-fetch by name; compare head commit SHA. -/
def _verify_branch (v : ConsistencyVerifier) (obs : BranchObservation) :
    Except NetError VerificationResult := do
  match _get_repo_info obs.toObservation with
  | none => return ⟨false, ["No repository specified"]⟩
  | some (owner, name) =>
    if obs.branch_name = "" then
      return ⟨false, ["No branch name specified"]⟩
    else
      let data ← v.github_client.get_branch owner name obs.branch_name
      match obs.head_sha with
      | some h =>
        if h ≠ "" then
          let actual := (data.getD "commit" (.obj [])).getField "sha"
          if ¬ pyEqStr actual h then
            return ⟨false, ["HEAD SHA mismatch: expected " ++ h ++
              ", got " ++ pyRenderOpt actual]⟩
          else return ⟨true, []⟩
        else return ⟨true, []⟩
      | none => return ⟨true, []⟩

/-- `_verify_tag`: re-fetch by name; compare target SHA. -/
def _verify_tag (v : ConsistencyVerifier) (obs : TagObservation) :
    Except NetError VerificationResult := do
  match _get_repo_info obs.toObservation with
  | none => return ⟨false, ["No repository specified"]⟩
  | some (owner, name) =>
    if obs.tag_name = "" then return ⟨false, ["No tag name specified"]⟩
    else
      let data ← v.github_client.get_tag owner name obs.tag_name
      match obs.target_sha with
      | some h =>
        if h ≠ "" then
          let actual := (data.getD "object" (.obj [])).getField "sha"
          if ¬ pyEqStr actual h then
            return ⟨false, ["Target SHA mismatch: expected " ++ h ++
              ", got " ++ pyRenderOpt actual]⟩
          else return ⟨true, []⟩
        else return ⟨true, []⟩
      | none => return ⟨true, []⟩

/-- `_verify_release`: re-fetch by tag; compare tag name. -/
def _verify_release (v : ConsistencyVerifier) (obs : ReleaseObservation) :
    Except NetError VerificationResult := do
  match _get_repo_info obs.toObservation with
  | none => return ⟨false, ["No repository specified"]⟩
  | some (owner, name) =>
    if obs.tag_name = "" then return ⟨false, ["No tag name specified"]⟩
    else
      let data ← v.github_client.get_release owner name obs.tag_name
      if ¬ pyEqStr (data.getField "tag_name") obs.tag_name then
        return ⟨false, ["Tag name mismatch"]⟩
      else return ⟨true, []⟩

/-- `_verify_url_accessible`: generic reachability check of the
verification URL; absent URL passes without any network call; a
`RequestException` is caught here and reported as a failure. -/
def _verify_url_accessible (v : ConsistencyVerifier) (obs : Observation) :
    VerificationResult :=
  match obs.verification.url with
  | none => ⟨true, []⟩
  | some url =>
    if url = "" then ⟨true, []⟩
    else
      match v.runtime.requests_get url with
      | .ok _ => ⟨true, []⟩
      | .error e => ⟨false, ["Failed to access URL: " ++ e]⟩

/-- `_verify_security_vendor`: fetch the cited URL; for IOC records
require the indicator's value to appear (case-insensitively) in the text;
a `RequestException` is caught here and reported as a failure. -/
def _verify_security_vendor (v : ConsistencyVerifier) (obs : AnyObservation) :
    VerificationResult :=
  match obs.base.verification.url with
  | none => ⟨false, ["No source URL specified"]⟩
  | some url =>
    if url = "" then ⟨false, ["No source URL specified"]⟩
    else
      match v.runtime.requests_get url with
      | .error e => ⟨false, ["Failed to fetch source URL: " ++ e]⟩
      | .ok text =>
        match obs with
        | .ioc i =>
          if i.value ≠ "" ∧
              ¬ strContainsSub text.toLower i.value.toLower then
            ⟨false, ["IOC value '" ++ i.value.take 50 ++
              "' not found in source"]⟩
          else ⟨true, []⟩
        | _ => ⟨true, []⟩

/-- `_verify_gharchive_event`: re-query the archive; skip with a passing
note when credentials are unavailable; an exception from the query is
caught here. -/
def _verify_gharchive_event (v : ConsistencyVerifier) (event : Event) :
    VerificationResult :=
  if ¬ strTruthy event.verification.bigquery_table then
    ⟨false, ["No BigQuery table specified"]⟩
  else if ¬ v.gharchive_client.has_credentials then
    ⟨true, ["GH Archive verification skipped - no credentials"]⟩
  else
    match v.gharchive_client.query_events (some event.repository.full_name)
        (some event.who.login) (v.runtime.strftime_ymdhm event.when) with
    | .error e => ⟨false, ["GH Archive verification error: " ++ e]⟩
    | .ok rows =>
      if rows.isEmpty then
        ⟨false, ["No matching event found in GH Archive"]⟩
      else ⟨true, []⟩

/-- `_verify_gharchive_observation`: best-effort presence check; skip with
a passing note when credentials are unavailable. -/
def _verify_gharchive_observation (v : ConsistencyVerifier)
    (obs : Observation) : VerificationResult :=
  if ¬ strTruthy obs.verification.bigquery_table then
    ⟨false, ["No BigQuery table specified"]⟩
  else if ¬ v.gharchive_client.has_credentials then
    ⟨true, ["GH Archive verification skipped - no credentials"]⟩
  else ⟨true, []⟩

/-- The per-`observation_type` strategy selected inside
`_verify_github_observation` (`verifiers.get(obs_type,
self._verify_url_accessible)`), called before the surrounding
`try/except`.  Each variant's `observation_type` is a fixed literal, so
string dispatch coincides with constructor dispatch; `snapshot`, `ioc` and
`article` take the `_verify_url_accessible` default. -/
def _verify_github_strategy (v : ConsistencyVerifier) (obs : AnyObservation) :
    Except NetError VerificationResult :=
  match obs with
  | .commit c => v._verify_commit c
  | .issue i => v._verify_issue i
  | .file f => v._verify_file f
  | .branch b => v._verify_branch b
  | .tag t => v._verify_tag t
  | .release r => v._verify_release r
  | .fork f => .ok (v._verify_url_accessible f.toObservation)
  | .snapshot s => .ok (v._verify_url_accessible s.toObservation)
  | .ioc i => .ok (v._verify_url_accessible i.toObservation)
  | .article a => .ok (v._verify_url_accessible a.toObservation)

/-- `_verify_github_observation`: run the per-type strategy; a raised
exception yields success when the record is marked deleted, a named
failure otherwise. -/
def _verify_github_observation (v : ConsistencyVerifier)
    (obs : AnyObservation) : VerificationResult :=
  match v._verify_github_strategy obs with
  | .ok r => r
  | .error e =>
    if obs.base.is_deleted then ⟨true, []⟩
    else ⟨false, ["Verification failed: " ++ e]⟩

/-- `_verify_event`: dispatch by `verification.source`; only the archive
and local-git sources are recognized for events. -/
def _verify_event (v : ConsistencyVerifier) (event : AnyEvent) :
    VerificationResult :=
  let source := event.base.verification.source
  if source = .gharchive then v._verify_gharchive_event event.base
  else if source = .git then ⟨true, ["Local git verification not supported"]⟩
  else ⟨false, ["Unknown verification source for event: " ++ source.pyStr]⟩

/-- `_verify_observation`: dispatch by `verification.source` through the
`verifiers` dict.  Every member of the source enumeration has an entry, so
the `if not verifier` unknown-source branch is unreachable for enum-valued
sources. -/
def _verify_observation (v : ConsistencyVerifier) (obs : AnyObservation) :
    VerificationResult :=
  match obs.base.verification.source with
  | .github => v._verify_github_observation obs
  | .gharchive => v._verify_gharchive_observation obs.base
  | .wayback => v._verify_url_accessible obs.base
  | .security_vendor => v._verify_security_vendor obs
  | .git => ⟨true, ["Local git verification not supported"]⟩

/-- `verify`: root-kind dispatch (`isinstance(evidence, Event)` versus
`Observation`). -/
def verify (v : ConsistencyVerifier) (evidence : AnyEvidence) :
    VerificationResult :=
  match evidence with
  | .event e => v._verify_event e
  | .observation o => v._verify_observation o

/-- `verify_all`: verify every record, tagging each failing record's
errors with its `evidence_id`. -/
def verify_all (v : ConsistencyVerifier) (evidence_list : List AnyEvidence) :
    VerificationResult :=
  let r := evidence_list.foldl
    (fun (acc : Bool × List String) evidence =>
      let result := v.verify evidence
      if result.is_valid then acc
      else
        (false,
          acc.2 ++ result.errors.map
            (fun e => "[" ++ evidence.evidence_id ++ "] " ++ e)))
    (true, [])
  ⟨r.1, r.2⟩

end ConsistencyVerifier

-- =========================================================================
-- Auxiliary definitions for the stated properties
-- =========================================================================
/-- Hexadecimal characters. -/
def isHexChar (c : Char) : Bool :=
  c.isDigit || ('a' ≤ c ∧ c ≤ 'f') || ('A' ≤ c ∧ c ≤ 'F')

/-- Pydantic construction of a `CommitObservation`
(`src/schema/observations.py`): the declared field constraints are exactly
`Field(min_length=40, max_length=40)` on `sha`; validation fails fast with
pydantic's error naming the field. -/
def CommitObservation.construct (base : Observation) (sha message : String)
    (author committer : CommitAuthor) (parents : List String)
    (files : List FileChange) (is_dangling : Bool) :
    Except String CommitObservation :=
  if h : sha.length = 40 then
    .ok { toObservation := base, sha := ⟨sha, h⟩, message, author, committer,
          parents, files, is_dangling }
  else if sha.length < 40 then
    .error "sha: String should have at least 40 characters"
  else
    .error "sha: String should have at most 40 characters"

/-- The verification sources recognized by `_verify_event`
(`src/verifiers/consistency.py`, lines 49–58). -/
def recognizedEventSources : List EvidenceSource := [.gharchive, .git]

/-- The verification sources with an entry in `_verify_observation`'s
strategy dict (`src/verifiers/consistency.py`, lines 60–75): every member
of the enumeration. -/
def recognizedObservationSources : List EvidenceSource :=
  [.github, .gharchive, .wayback, .security_vendor, .git]

/-- The recognized source set for a record's root kind. -/
def AnyEvidence.recognizedSources : AnyEvidence → List EvidenceSource
  | .event _ => recognizedEventSources
  | .observation _ => recognizedObservationSources

/-- The unknown-source error text for a record's root kind
(`src/verifiers/consistency.py`). -/
def AnyEvidence.unknownSourceMsg : AnyEvidence → String
  | .event e =>
    "Unknown verification source for event: " ++
      e.base.verification.source.pyStr
  | .observation o =>
    "Unknown verification source: " ++ o.base.verification.source.pyStr

/-- The `event_type` discriminator values of the twelve event variants
(`src/__init__.py`, `_EventUnion`). -/
def recognizedEventTags : List String :=
  ["push", "pull_request", "issue", "issue_comment", "create", "delete",
   "fork", "workflow_run", "release", "watch", "member", "public"]

/-- The `observation_type` discriminator values of the ten observation
variants (`src/__init__.py`, `_ObservationUnion`). -/
def recognizedObservationTags : List String :=
  ["commit", "issue", "file", "fork", "branch", "tag", "release",
   "snapshot", "ioc", "article"]

/-- The mutating store operations of `src/store.py`, for stating an
invariant over arbitrary operation sequences. -/
inductive StoreOp where
  | add (e : AnyEvidence)
  | add_all (l : List AnyEvidence)
  | remove (evidence_id : String)
  | clear
  | merge (other : EvidenceStore)

/-- Apply one mutating operation to a store. -/
def StoreOp.apply (s : EvidenceStore) : StoreOp → EvidenceStore
  | .add e => s.add e
  | .add_all l => s.add_all l
  | .remove evidence_id => (s.remove evidence_id).1
  | .clear => s.clear
  | .merge other => s.merge other

/-- The store's internal consistency invariant: the record list has no two
records with the same `evidence_id`, the index has no duplicate keys, and
the index finds exactly the record with the looked-up id in the list. -/
def EvidenceStore.Inv (s : EvidenceStore) : Prop :=
  (s._evidence.map AnyEvidence.evidence_id).Nodup ∧
  (s._by_id.map Prod.fst).Nodup ∧
  ∀ evidence_id, dictGet evidence_id s._by_id =
    s._evidence.find? (fun e => e.evidence_id = evidence_id)

-- =========================================================================
-- Concrete fixtures used by witnesses and counterexamples
-- =========================================================================

/-- A verifier whose every network operation raises (connection failures),
with no archive credentials.  Used to witness failure-path behavior. -/
def failingVerifier : ConsistencyVerifier :=
  { github_client :=
      { get_commit := fun _ _ _ => .error "404 Client Error"
        get_issue := fun _ _ _ => .error "404 Client Error"
        get_pull_request := fun _ _ _ => .error "404 Client Error"
        get_file := fun _ _ _ _ => .error "404 Client Error"
        get_branch := fun _ _ _ => .error "404 Client Error"
        get_tag := fun _ _ _ => .error "404 Client Error"
        get_release := fun _ _ _ => .error "404 Client Error" }
    gharchive_client :=
      { has_credentials := false
        query_events := fun _ _ _ => .error "no client" }
    runtime :=
      { requests_get := fun _ => .error "connection refused"
        sha256_hexdigest := fun _ => ""
        b64decode_utf8 := fun _ => ""
        strftime_ymdhm := fun _ => "" } }

/-- A deleted wayback-sourced snapshot observation with a recorded URL. -/
def sampleDeletedWaybackSnapshot : SnapshotObservation :=
  { evidence_id := "snap-1"
    observed_when := 100
    observed_by := .wayback
    observed_what := "snapshot of project page"
    verification := { source := .wayback, url := some "https://example.org/a" }
    is_deleted := true
    original_url := "https://example.org/a"
    snapshots := []
    total_snapshots := 0 }

/-- A deleted github-sourced commit observation. -/
def sampleDeletedCommit : CommitObservation :=
  { evidence_id := "commit-1"
    observed_when := 100
    observed_by := .github
    observed_what := "commit observed via API"
    repository := some { owner := "aws", name := "aws-toolkit-vscode",
                         full_name := "aws/aws-toolkit-vscode" }
    verification := { source := .github }
    is_deleted := true
    sha := ⟨"0123456789abcdef0123456789abcdef01234567", by decide⟩
    message := "m"
    author := { name := "a", email := "a@example.org", date := 1 }
    committer := { name := "a", email := "a@example.org", date := 1 } }

/-- A watch event with a github (unrecognized-for-events) source. -/
def sampleGithubSourcedWatchEvent : WatchEvent :=
  { evidence_id := "watch-1"
    when := 5
    who := { login := "octocat" }
    what := "starred the repository"
    repository := { owner := "o", name := "r", full_name := "o/r" }
    verification := { source := .github } }

/-- A git-sourced watch event (always passes verification with a note). -/
def sampleGitSourcedWatchEvent : WatchEvent :=
  { evidence_id := "watch-2"
    when := 6
    who := { login := "octocat" }
    what := "starred the repository"
    repository := { owner := "o", name := "r", full_name := "o/r" }
    verification := { source := .git } }

/-- An ioc observation under the primary-API source with no recorded URL. -/
def sampleUrllessGithubIOC : IOC :=
  { evidence_id := "ioc-1"
    observed_when := 50
    observed_by := .github
    observed_what := "indicator extracted from commit"
    verification := { source := .github }
    ioc_type := .domain
    value := "evil.example.org" }

/-- An observation-based store record with both timestamps set. -/
def sampleTwoTimestampIssue : IssueObservation :=
  { evidence_id := "issue-1"
    original_when := some 10
    observed_when := 99
    observed_by := .github
    observed_what := "issue observed via API"
    verification := { source := .github }
    issue_number := 7 }

/-- A store holding the git-sourced watch event. -/
def sampleStore : EvidenceStore :=
  EvidenceStore.empty.add (.event (.watch sampleGitSourcedWatchEvent))

/-- A commit observation whose sha has 40 characters, none of them hex. -/
def sampleNonHexCommit : CommitObservation :=
  { evidence_id := "commit-z"
    observed_when := 100
    observed_by := .github
    observed_what := "commit observed via API"
    verification := { source := .github }
    sha := ⟨"zzzzzzzzzzzzzzzzzzzzzzzzzzzzzzzzzzzzzzzz", by decide⟩
    message := "m"
    author := { name := "a", email := "a@example.org", date := 1 }
    committer := { name := "a", email := "a@example.org", date := 1 } }

-- =========================================================================
-- Theorems
-- =========================================================================

@[simp] theorem decStr_enc (s : String) : decStr (.str s) = .ok s := rfl

@[simp] theorem decInt_enc (n : Int) : decInt (.int n) = .ok n := rfl

@[simp] theorem decBool_enc (b : Bool) : decBool (.bool b) = .ok b := rfl

@[simp] theorem decDT_enc (t : DateTime) : decDT (.int t) = .ok t := rfl

@[simp] theorem decOpt_encOpt {f : α → Json} {g : Json → Except String α}
    (hnull : ∀ a, f a ≠ .null) (h : ∀ a, g (f a) = .ok a) (o : Option α) :

    decOpt g (encOpt f o) = .ok o := by

  cases o with

  | none => rfl

  | some a =>

    simp only [encOpt, decOpt]

    split

    · exact absurd (by assumption) (hnull a)

    · rw [h a]; rfl

@[simp] theorem decList_encList {f : α → Json} {g : Json → Except String α}
    (h : ∀ a, g (f a) = .ok a) (xs : List α) :

    decList g (encList f xs) = .ok xs := by

  simp only [encList, decList]

  induction xs with

  | nil => rfl

  | cons x xs ih =>

    simp only [List.map_cons, List.mapM_cons, h x, ih]

    rfl

@[simp] theorem decEvidenceSource_enc (s : EvidenceSource) :
    decEvidenceSource (.str s.value) = .ok s := by cases s <;> rfl

@[simp] theorem decRefType_enc (r : RefType) :
    decRefType (.str r.value) = .ok r := by cases r <;> rfl

@[simp] theorem decPRAction_enc (a : PRAction) :
    decPRAction (.str a.value) = .ok a := by cases a <;> rfl

@[simp] theorem decIssueAction_enc (a : IssueAction) :
    decIssueAction (.str a.value) = .ok a := by cases a <;> rfl

@[simp] theorem decWorkflowConclusion_enc (c : WorkflowConclusion) :
    decWorkflowConclusion (.str c.value) = .ok c := by cases c <;> rfl

@[simp] theorem decIOCType_enc (t : IOCType) :
    decIOCType (.str t.value) = .ok t := by cases t <;> rfl

@[simp] theorem decCommentAction_enc (a : CommentAction) :
    decCommentAction (.str a.value) = .ok a := by cases a <;> rfl

@[simp] theorem decWorkflowRunAction_enc (a : WorkflowRunAction) :
    decWorkflowRunAction (.str a.value) = .ok a := by cases a <;> rfl

@[simp] theorem decReleaseAction_enc (a : ReleaseAction) :
    decReleaseAction (.str a.value) = .ok a := by cases a <;> rfl

@[simp] theorem decMemberAction_enc (a : MemberAction) :
    decMemberAction (.str a.value) = .ok a := by cases a <;> rfl

@[simp] theorem decFileStatus_enc (s : FileStatus) :
    decFileStatus (.str s.value) = .ok s := by cases s <;> rfl

@[simp] theorem decIssueState_enc (s : IssueState) :
    decIssueState (.str s.value) = .ok s := by cases s <;> rfl

@[simp] theorem Except.ok_bind (a : α) (f : α → Except ε β) :
    (Except.ok a : Except ε α) >>= f = f a := rfl

@[simp] theorem decGitHubActor_enc (a : GitHubActor) :
    decGitHubActor a.model_dump = .ok a := by

  simp [GitHubActor.model_dump, decGitHubActor, reqField, defField, Json.get,

    List.lookup, decOpt_encOpt (f := Json.int) (fun _ => by simp)]

@[simp] theorem decGitHubRepository_enc (r : GitHubRepository) :
    decGitHubRepository r.model_dump = .ok r := by

  simp [GitHubRepository.model_dump, decGitHubRepository, reqField, defField,

    Json.get, List.lookup, decOpt_encOpt (f := Json.int) (fun _ => by simp)]

@[simp] theorem decVerificationInfo_enc (v : VerificationInfo) :
    decVerificationInfo v.model_dump = .ok v := by

  simp [VerificationInfo.model_dump, decVerificationInfo, reqField, defField,

    Json.get, List.lookup, decOpt_encOpt (f := Json.str) (fun _ => by simp)]

@[simp] theorem decCommitAuthor_enc (a : CommitAuthor) :
    decCommitAuthor a.model_dump = .ok a := by

  simp [CommitAuthor.model_dump, decCommitAuthor, reqField, Json.get,

    List.lookup]

@[simp] theorem decFileChange_enc (f : FileChange) :
    decFileChange f.model_dump = .ok f := by

  simp [FileChange.model_dump, decFileChange, reqField, defField, Json.get,

    List.lookup, decOpt_encOpt (f := Json.str) (fun _ => by simp)]

@[simp] theorem decCommitInPush_enc (c : CommitInPush) :
    decCommitInPush c.model_dump = .ok c := by

  simp [CommitInPush.model_dump, decCommitInPush, reqField, Json.get,

    List.lookup]

@[simp] theorem decWaybackSnapshot_enc (w : WaybackSnapshot) :
    decWaybackSnapshot w.model_dump = .ok w := by

  simp [WaybackSnapshot.model_dump, decWaybackSnapshot, reqField, defField,

    Json.get, List.lookup]

@[simp] theorem decPushEvent_enc (e : PushEvent) :
    decPushEvent e.dumpList = .ok e := by

  simp [PushEvent.dumpList, Event.dumpList, decPushEvent, decEventBase,

    reqField, defField, Json.get, List.lookup,

    decList_encList (h := decCommitInPush_enc)]

@[simp] theorem decPullRequestEvent_enc (e : PullRequestEvent) :
    decPullRequestEvent e.dumpList = .ok e := by

  simp [PullRequestEvent.dumpList, Event.dumpList, decPullRequestEvent,

    decEventBase, reqField, defField, Json.get, List.lookup,

    decOpt_encOpt (f := Json.str) (fun _ => by simp) decStr_enc]

@[simp] theorem decIssueEvent_enc (e : IssueEvent) :
    decIssueEvent e.dumpList = .ok e := by

  simp [IssueEvent.dumpList, Event.dumpList, decIssueEvent, decEventBase,

    reqField, defField, Json.get, List.lookup,

    decOpt_encOpt (f := Json.str) (fun _ => by simp) decStr_enc]

@[simp] theorem decIssueCommentEvent_enc (e : IssueCommentEvent) :
    decIssueCommentEvent e.dumpList = .ok e := by

  simp [IssueCommentEvent.dumpList, Event.dumpList, decIssueCommentEvent,

    decEventBase, reqField, defField, Json.get, List.lookup]

@[simp] theorem decCreateEvent_enc (e : CreateEvent) :
    decCreateEvent e.dumpList = .ok e := by

  simp [CreateEvent.dumpList, Event.dumpList, decCreateEvent, decEventBase,

    reqField, defField, Json.get, List.lookup]

@[simp] theorem decDeleteEvent_enc (e : DeleteEvent) :
    decDeleteEvent e.dumpList = .ok e := by

  simp [DeleteEvent.dumpList, Event.dumpList, decDeleteEvent, decEventBase,

    reqField, defField, Json.get, List.lookup]

@[simp] theorem decForkEvent_enc (e : ForkEvent) :
    decForkEvent e.dumpList = .ok e := by

  simp [ForkEvent.dumpList, Event.dumpList, decForkEvent, decEventBase,

    reqField, defField, Json.get, List.lookup]

@[simp] theorem decWorkflowRunEvent_enc (e : WorkflowRunEvent) :
    decWorkflowRunEvent e.dumpList = .ok e := by

  simp [WorkflowRunEvent.dumpList, Event.dumpList, decWorkflowRunEvent,

    decEventBase, reqField, defField, Json.get, List.lookup,

    decOpt_encOpt (f := fun c => Json.str c.value) (fun _ => by simp)

      decWorkflowConclusion_enc]

@[simp] theorem decReleaseEvent_enc (e : ReleaseEvent) :
    decReleaseEvent e.dumpList = .ok e := by

  simp [ReleaseEvent.dumpList, Event.dumpList, decReleaseEvent, decEventBase,

    reqField, defField, Json.get, List.lookup,

    decOpt_encOpt (f := Json.str) (fun _ => by simp) decStr_enc]

@[simp] theorem decWatchEvent_enc (e : WatchEvent) :
    decWatchEvent e.dumpList = .ok e := by

  simp [WatchEvent.dumpList, Event.dumpList, decWatchEvent, decEventBase,

    reqField, defField, Json.get, List.lookup]

@[simp] theorem decMemberEvent_enc (e : MemberEvent) :
    decMemberEvent e.dumpList = .ok e := by

  simp [MemberEvent.dumpList, Event.dumpList, decMemberEvent, decEventBase,

    reqField, defField, Json.get, List.lookup]

@[simp] theorem decPublicEvent_enc (e : PublicEvent) :
    decPublicEvent e.dumpList = .ok e := by

  simp [PublicEvent.dumpList, Event.dumpList, decPublicEvent, decEventBase,

    reqField, defField, Json.get, List.lookup]

@[simp] theorem decSha40_enc (x : Sha40) : decSha40 (.str x.val) = .ok x := by
  rw [decSha40, dif_pos x.property]

  exact congrArg Except.ok (Subtype.eta x x.property)

@[simp] theorem decCommitObservation_enc (o : CommitObservation) :
    decCommitObservation o.dumpList = .ok o := by

  simp [CommitObservation.dumpList, Observation.dumpList,

    decCommitObservation, decObservationBase, reqField, defField, Json.get,

    List.lookup,

    decOpt_encOpt (f := Json.int) (fun _ => by simp) decDT_enc,

    decOpt_encOpt (f := GitHubActor.model_dump)

      (fun a => by simp [GitHubActor.model_dump]) decGitHubActor_enc,

    decOpt_encOpt (f := Json.str) (fun _ => by simp) decStr_enc,

    decOpt_encOpt (f := GitHubRepository.model_dump)

      (fun r => by simp [GitHubRepository.model_dump])

      decGitHubRepository_enc,

    decList_encList (h := decStr_enc),

    decList_encList (h := decFileChange_enc)]

@[simp] theorem decIssueObservation_enc (o : IssueObservation) :
    decIssueObservation o.dumpList = .ok o := by

  simp [IssueObservation.dumpList, Observation.dumpList,

    decIssueObservation, decObservationBase, reqField, defField, Json.get,

    List.lookup,

    decOpt_encOpt (f := Json.int) (fun _ => by simp) decDT_enc,

    decOpt_encOpt (f := GitHubActor.model_dump)

      (fun a => by simp [GitHubActor.model_dump]) decGitHubActor_enc,

    decOpt_encOpt (f := Json.str) (fun _ => by simp) decStr_enc,

    decOpt_encOpt (f := GitHubRepository.model_dump)

      (fun r => by simp [GitHubRepository.model_dump])

      decGitHubRepository_enc,

    decOpt_encOpt (f := fun s => Json.str s.value) (fun _ => by simp)

      decIssueState_enc]

@[simp] theorem decFileObservation_enc (o : FileObservation) :
    decFileObservation o.dumpList = .ok o := by

  simp [FileObservation.dumpList, Observation.dumpList, decFileObservation,

    decObservationBase, reqField, defField, Json.get, List.lookup,

    decOpt_encOpt (f := Json.int) (fun _ => by simp) decDT_enc,

    decOpt_encOpt (f := GitHubActor.model_dump)

      (fun a => by simp [GitHubActor.model_dump]) decGitHubActor_enc,

    decOpt_encOpt (f := Json.str) (fun _ => by simp) decStr_enc,

    decOpt_encOpt (f := GitHubRepository.model_dump)

      (fun r => by simp [GitHubRepository.model_dump])

      decGitHubRepository_enc]

@[simp] theorem decForkObservation_enc (o : ForkObservation) :
    decForkObservation o.dumpList = .ok o := by

  simp [ForkObservation.dumpList, Observation.dumpList, decForkObservation,

    decObservationBase, reqField, defField, Json.get, List.lookup,

    decOpt_encOpt (f := Json.int) (fun _ => by simp) decDT_enc,

    decOpt_encOpt (f := GitHubActor.model_dump)

      (fun a => by simp [GitHubActor.model_dump]) decGitHubActor_enc,

    decOpt_encOpt (f := Json.str) (fun _ => by simp) decStr_enc,

    decOpt_encOpt (f := GitHubRepository.model_dump)

      (fun r => by simp [GitHubRepository.model_dump])

      decGitHubRepository_enc]

@[simp] theorem decBranchObservation_enc (o : BranchObservation) :
    decBranchObservation o.dumpList = .ok o := by

  simp [BranchObservation.dumpList, Observation.dumpList,

    decBranchObservation, decObservationBase, reqField, defField, Json.get,

    List.lookup,

    decOpt_encOpt (f := Json.int) (fun _ => by simp) decDT_enc,

    decOpt_encOpt (f := GitHubActor.model_dump)

      (fun a => by simp [GitHubActor.model_dump]) decGitHubActor_enc,

    decOpt_encOpt (f := Json.str) (fun _ => by simp) decStr_enc,

    decOpt_encOpt (f := GitHubRepository.model_dump)

      (fun r => by simp [GitHubRepository.model_dump])

      decGitHubRepository_enc]

@[simp] theorem decTagObservation_enc (o : TagObservation) :
    decTagObservation o.dumpList = .ok o := by

  simp [TagObservation.dumpList, Observation.dumpList, decTagObservation,

    decObservationBase, reqField, defField, Json.get, List.lookup,

    decOpt_encOpt (f := Json.int) (fun _ => by simp) decDT_enc,

    decOpt_encOpt (f := GitHubActor.model_dump)

      (fun a => by simp [GitHubActor.model_dump]) decGitHubActor_enc,

    decOpt_encOpt (f := Json.str) (fun _ => by simp) decStr_enc,

    decOpt_encOpt (f := GitHubRepository.model_dump)

      (fun r => by simp [GitHubRepository.model_dump])

      decGitHubRepository_enc]

@[simp] theorem decReleaseObservation_enc (o : ReleaseObservation) :
    decReleaseObservation o.dumpList = .ok o := by

  simp [ReleaseObservation.dumpList, Observation.dumpList,

    decReleaseObservation, decObservationBase, reqField, defField, Json.get,

    List.lookup,

    decOpt_encOpt (f := Json.int) (fun _ => by simp) decDT_enc,

    decOpt_encOpt (f := GitHubActor.model_dump)

      (fun a => by simp [GitHubActor.model_dump]) decGitHubActor_enc,

    decOpt_encOpt (f := Json.str) (fun _ => by simp) decStr_enc,

    decOpt_encOpt (f := GitHubRepository.model_dump)

      (fun r => by simp [GitHubRepository.model_dump])

      decGitHubRepository_enc]

@[simp] theorem decSnapshotObservation_enc (o : SnapshotObservation) :
    decSnapshotObservation o.dumpList = .ok o := by

  simp [SnapshotObservation.dumpList, Observation.dumpList,

    decSnapshotObservation, decObservationBase, reqField, defField, Json.get,

    List.lookup,

    decOpt_encOpt (f := Json.int) (fun _ => by simp) decDT_enc,

    decOpt_encOpt (f := GitHubActor.model_dump)

      (fun a => by simp [GitHubActor.model_dump]) decGitHubActor_enc,

    decOpt_encOpt (f := Json.str) (fun _ => by simp) decStr_enc,

    decOpt_encOpt (f := GitHubRepository.model_dump)

      (fun r => by simp [GitHubRepository.model_dump])

      decGitHubRepository_enc,

    decList_encList (h := decWaybackSnapshot_enc)]

@[simp] theorem decIOC_enc (o : IOC) : decIOC o.dumpList = .ok o := by
  simp [IOC.dumpList, Observation.dumpList, decIOC, decObservationBase,

    reqField, defField, Json.get, List.lookup,

    decOpt_encOpt (f := Json.int) (fun _ => by simp) decDT_enc,

    decOpt_encOpt (f := GitHubActor.model_dump)

      (fun a => by simp [GitHubActor.model_dump]) decGitHubActor_enc,

    decOpt_encOpt (f := Json.str) (fun _ => by simp) decStr_enc,

    decOpt_encOpt (f := GitHubRepository.model_dump)

      (fun r => by simp [GitHubRepository.model_dump])

      decGitHubRepository_enc]

@[simp] theorem decArticleObservation_enc (o : ArticleObservation) :
    decArticleObservation o.dumpList = .ok o := by

  simp [ArticleObservation.dumpList, Observation.dumpList,

    decArticleObservation, decObservationBase, reqField, defField, Json.get,

    List.lookup,

    decOpt_encOpt (f := Json.int) (fun _ => by simp) decDT_enc,

    decOpt_encOpt (f := GitHubActor.model_dump)

      (fun a => by simp [GitHubActor.model_dump]) decGitHubActor_enc,

    decOpt_encOpt (f := Json.str) (fun _ => by simp) decStr_enc,

    decOpt_encOpt (f := GitHubRepository.model_dump)

      (fun r => by simp [GitHubRepository.model_dump])

      decGitHubRepository_enc,

    decList_encList (h := decStr_enc)]

-- =========================================================================
-- Discriminator fields of the serialized forms
-- =========================================================================
@[simp] theorem get_et_push (e : PushEvent) :
    Json.get e.dumpList "event_type" = some (.str "push") := by

  simp [PushEvent.dumpList, Event.dumpList, Json.get, List.lookup]

@[simp] theorem get_et_pull_request (e : PullRequestEvent) :
    Json.get e.dumpList "event_type" = some (.str "pull_request") := by

  simp [PullRequestEvent.dumpList, Event.dumpList, Json.get, List.lookup]

@[simp] theorem get_et_issue (e : IssueEvent) :
    Json.get e.dumpList "event_type" = some (.str "issue") := by

  simp [IssueEvent.dumpList, Event.dumpList, Json.get, List.lookup]

@[simp] theorem get_et_issue_comment (e : IssueCommentEvent) :
    Json.get e.dumpList "event_type" = some (.str "issue_comment") := by

  simp [IssueCommentEvent.dumpList, Event.dumpList, Json.get, List.lookup]

@[simp] theorem get_et_create (e : CreateEvent) :
    Json.get e.dumpList "event_type" = some (.str "create") := by

  simp [CreateEvent.dumpList, Event.dumpList, Json.get, List.lookup]

@[simp] theorem get_et_delete (e : DeleteEvent) :
    Json.get e.dumpList "event_type" = some (.str "delete") := by

  simp [DeleteEvent.dumpList, Event.dumpList, Json.get, List.lookup]

@[simp] theorem get_et_fork (e : ForkEvent) :
    Json.get e.dumpList "event_type" = some (.str "fork") := by

  simp [ForkEvent.dumpList, Event.dumpList, Json.get, List.lookup]

@[simp] theorem get_et_workflow_run (e : WorkflowRunEvent) :
    Json.get e.dumpList "event_type" = some (.str "workflow_run") := by

  simp [WorkflowRunEvent.dumpList, Event.dumpList, Json.get, List.lookup]

@[simp] theorem get_et_release (e : ReleaseEvent) :
    Json.get e.dumpList "event_type" = some (.str "release") := by

  simp [ReleaseEvent.dumpList, Event.dumpList, Json.get, List.lookup]

@[simp] theorem get_et_watch (e : WatchEvent) :
    Json.get e.dumpList "event_type" = some (.str "watch") := by

  simp [WatchEvent.dumpList, Event.dumpList, Json.get, List.lookup]

@[simp] theorem get_et_member (e : MemberEvent) :
    Json.get e.dumpList "event_type" = some (.str "member") := by

  simp [MemberEvent.dumpList, Event.dumpList, Json.get, List.lookup]

@[simp] theorem get_et_public (e : PublicEvent) :
    Json.get e.dumpList "event_type" = some (.str "public") := by

  simp [PublicEvent.dumpList, Event.dumpList, Json.get, List.lookup]

@[simp] theorem get_ot_commit (o : CommitObservation) :
    Json.get o.dumpList "observation_type" = some (.str "commit") := by

  simp [CommitObservation.dumpList, Observation.dumpList, Json.get, List.lookup]

@[simp] theorem get_et_commit_none (o : CommitObservation) :
    Json.get o.dumpList "event_type" = none := by

  simp [CommitObservation.dumpList, Observation.dumpList, Json.get, List.lookup]

@[simp] theorem get_ot_issue (o : IssueObservation) :
    Json.get o.dumpList "observation_type" = some (.str "issue") := by

  simp [IssueObservation.dumpList, Observation.dumpList, Json.get, List.lookup]

@[simp] theorem get_et_issue_none (o : IssueObservation) :
    Json.get o.dumpList "event_type" = none := by

  simp [IssueObservation.dumpList, Observation.dumpList, Json.get, List.lookup]

@[simp] theorem get_ot_file (o : FileObservation) :
    Json.get o.dumpList "observation_type" = some (.str "file") := by

  simp [FileObservation.dumpList, Observation.dumpList, Json.get, List.lookup]

@[simp] theorem get_et_file_none (o : FileObservation) :
    Json.get o.dumpList "event_type" = none := by

  simp [FileObservation.dumpList, Observation.dumpList, Json.get, List.lookup]

@[simp] theorem get_ot_fork (o : ForkObservation) :
    Json.get o.dumpList "observation_type" = some (.str "fork") := by

  simp [ForkObservation.dumpList, Observation.dumpList, Json.get, List.lookup]

@[simp] theorem get_et_fork_none (o : ForkObservation) :
    Json.get o.dumpList "event_type" = none := by

  simp [ForkObservation.dumpList, Observation.dumpList, Json.get, List.lookup]

@[simp] theorem get_ot_branch (o : BranchObservation) :
    Json.get o.dumpList "observation_type" = some (.str "branch") := by

  simp [BranchObservation.dumpList, Observation.dumpList, Json.get, List.lookup]

@[simp] theorem get_et_branch_none (o : BranchObservation) :
    Json.get o.dumpList "event_type" = none := by

  simp [BranchObservation.dumpList, Observation.dumpList, Json.get, List.lookup]

@[simp] theorem get_ot_tag (o : TagObservation) :
    Json.get o.dumpList "observation_type" = some (.str "tag") := by

  simp [TagObservation.dumpList, Observation.dumpList, Json.get, List.lookup]

@[simp] theorem get_et_tag_none (o : TagObservation) :
    Json.get o.dumpList "event_type" = none := by

  simp [TagObservation.dumpList, Observation.dumpList, Json.get, List.lookup]

@[simp] theorem get_ot_release (o : ReleaseObservation) :
    Json.get o.dumpList "observation_type" = some (.str "release") := by

  simp [ReleaseObservation.dumpList, Observation.dumpList, Json.get, List.lookup]

@[simp] theorem get_et_release_none (o : ReleaseObservation) :
    Json.get o.dumpList "event_type" = none := by

  simp [ReleaseObservation.dumpList, Observation.dumpList, Json.get, List.lookup]

@[simp] theorem get_ot_snapshot (o : SnapshotObservation) :
    Json.get o.dumpList "observation_type" = some (.str "snapshot") := by

  simp [SnapshotObservation.dumpList, Observation.dumpList, Json.get, List.lookup]

@[simp] theorem get_et_snapshot_none (o : SnapshotObservation) :
    Json.get o.dumpList "event_type" = none := by

  simp [SnapshotObservation.dumpList, Observation.dumpList, Json.get, List.lookup]

@[simp] theorem get_ot_ioc (o : IOC) :
    Json.get o.dumpList "observation_type" = some (.str "ioc") := by

  simp [IOC.dumpList, Observation.dumpList, Json.get, List.lookup]

@[simp] theorem get_et_ioc_none (o : IOC) :
    Json.get o.dumpList "event_type" = none := by

  simp [IOC.dumpList, Observation.dumpList, Json.get, List.lookup]

@[simp] theorem get_ot_article (o : ArticleObservation) :
    Json.get o.dumpList "observation_type" = some (.str "article") := by

  simp [ArticleObservation.dumpList, Observation.dumpList, Json.get, List.lookup]

@[simp] theorem get_et_article_none (o : ArticleObservation) :
    Json.get o.dumpList "event_type" = none := by

  simp [ArticleObservation.dumpList, Observation.dumpList, Json.get, List.lookup]

/-- C1 (Serialization round-trip): deserializing the serialized form of
any concrete Event or Observation variant — via `load_evidence_from_json`,
as `EvidenceStore.from_json` does for each item of
`EvidenceStore.to_json`'s array — yields the identical concrete variant
with field-for-field equal values, the discriminator included; and at
store level, `from_json ∘ to_json` rebuilds a store holding exactly the
same record list. -/
theorem serialization_roundtrip :
    (∀ e : AnyEvidence, load_evidence_from_json e.dumpDict = .ok e) ∧
    (∀ s : EvidenceStore,
      EvidenceStore.from_json s.to_json = .ok (.ofList s._evidence)) := by
  have h1 : ∀ e : AnyEvidence, load_evidence_from_json e.dumpDict = .ok e := by
    intro e
    cases e with
    | event ev =>
      cases ev <;>
        simp [AnyEvidence.dumpDict, AnyEvent.dumpDict,
          load_evidence_from_json, eventAdapterValidate, Except.map]
    | observation ob =>
      cases ob <;>
        simp [AnyEvidence.dumpDict, AnyObservation.dumpDict,
          load_evidence_from_json, observationAdapterValidate, Except.map]
  refine ⟨h1, fun s => ?_⟩
  have h2 : ∀ l : List AnyEvidence,
      (l.map AnyEvidence.model_dump).mapM (fun item =>
        match item with
        | .obj d => load_evidence_from_json d
        | _ => .error
            "Data must contain 'event_type' or 'observation_type' field")
        = Except.ok l := by
    intro l
    induction l with
    | nil => rfl
    | cons x xs ih =>
      simp only [List.map_cons, List.mapM_cons, AnyEvidence.model_dump,
        h1 x, ih]
      rfl
  simp only [EvidenceStore.from_json, EvidenceStore.to_json, h2]
  rfl

theorem lookup_cons (k k' : String) (v : α) (d : List (String × α)) :
    List.lookup k' ((k, v) :: d) = if k' = k then some v else d.lookup k' := by
  by_cases h : k' = k
  · subst h; simp [List.lookup]
  · simp [List.lookup, beq_eq_false_iff_ne.mpr h, h]

theorem dictGet_insert (k k' : String) (v : α) (d : List (String × α)) :
    dictGet k' (dictInsert k v d) = if k' = k then some v else dictGet k' d := by
  induction d with
  | nil => simp [dictInsert, dictGet, lookup_cons]
  | cons a rest ih =>
    obtain ⟨ka, va⟩ := a
    by_cases hka : ka = k
    · subst hka
      simp only [dictInsert, if_pos rfl, dictGet, lookup_cons]
      by_cases hk' : k' = ka <;> simp [hk', lookup_cons]
    · simp only [dictInsert, if_neg hka, dictGet, lookup_cons]
      by_cases hk' : k' = ka
      · subst hk'
        have hne : ¬ (k' = k) := hka
        simp [hne, lookup_cons]
      · simp only [if_neg hk']
        simpa [dictGet] using ih

theorem add_filter_eq_singleton (s : EvidenceStore) (e : AnyEvidence)
    (h : s.contains e.evidence_id = true) :
    (s.add e)._evidence.filter (fun x => x.evidence_id = e.evidence_id)
      = [e] := by
  have hmem : (dictGet e.evidence_id s._by_id).isSome := h
  simp only [EvidenceStore.add, hmem, if_pos]
  rw [List.filter_append]
  have h1 : (s._evidence.filter
      (fun x => x.evidence_id ≠ e.evidence_id)).filter
      (fun x => x.evidence_id = e.evidence_id) = [] := by
    rw [List.filter_eq_nil_iff]
    intro a ha
    have := (List.mem_filter.mp ha).2
    simpa using this
  rw [h1]
  simp

theorem add_get_self (s : EvidenceStore) (e : AnyEvidence) :
    (s.add e).get e.evidence_id = some e := by
  simp [EvidenceStore.add, EvidenceStore.get, dictGet_insert]

theorem contains_add_self (s : EvidenceStore) (e : AnyEvidence) :
    (s.add e).contains e.evidence_id = true := by
  simp [EvidenceStore.contains, EvidenceStore.add, dictGet_insert]

/-- C2 (Upsert replacement): when a record's `evidence_id` already exists
in the store, `add` leaves exactly one entry for that id in the record
list, and `get` afterwards returns the newly added record in its entirety;
adding the same record twice likewise leaves exactly one entry. -/
theorem add_upsert (s : EvidenceStore) (e : AnyEvidence)
    (h : s.contains e.evidence_id = true) :
    ((s.add e)._evidence.filter
        (fun x => x.evidence_id = e.evidence_id)).length = 1 ∧
    (s.add e).get e.evidence_id = some e ∧
    (((s.add e).add e)._evidence.filter
        (fun x => x.evidence_id = e.evidence_id)).length = 1 ∧
    ((s.add e).add e).get e.evidence_id = some e := by
  refine ⟨?_, add_get_self s e, ?_, add_get_self _ e⟩
  · rw [add_filter_eq_singleton s e h]; rfl
  · rw [add_filter_eq_singleton (s.add e) e (contains_add_self s e)]; rfl

theorem add_upsert_witness :
    sampleStore.contains
      (AnyEvidence.event (.watch sampleGitSourcedWatchEvent)).evidence_id
        = true ∧
    (((sampleStore.add
        (.event (.watch sampleGitSourcedWatchEvent)))._evidence.filter
          (fun x => x.evidence_id =
            (AnyEvidence.event
              (.watch sampleGitSourcedWatchEvent)).evidence_id)).length = 1 ∧
      (sampleStore.add (.event (.watch sampleGitSourcedWatchEvent))).get
        (AnyEvidence.event (.watch sampleGitSourcedWatchEvent)).evidence_id
          = some (.event (.watch sampleGitSourcedWatchEvent)) ∧
      (((sampleStore.add
          (.event (.watch sampleGitSourcedWatchEvent))).add
            (.event (.watch sampleGitSourcedWatchEvent)))._evidence.filter
          (fun x => x.evidence_id =
            (AnyEvidence.event
              (.watch sampleGitSourcedWatchEvent)).evidence_id)).length = 1 ∧
      ((sampleStore.add (.event (.watch sampleGitSourcedWatchEvent))).add
          (.event (.watch sampleGitSourcedWatchEvent))).get
        (AnyEvidence.event (.watch sampleGitSourcedWatchEvent)).evidence_id
          = some (.event (.watch sampleGitSourcedWatchEvent))) :=
  ⟨by decide,
   add_upsert sampleStore (.event (.watch sampleGitSourcedWatchEvent))
     (by decide)⟩

theorem lookup_eq_none_of_not_mem_keys {d : List (String × α)} {k : String}
    (h : k ∉ d.map Prod.fst) : d.lookup k = none := by
  induction d with
  | nil => rfl
  | cons a rest ih =>
    obtain ⟨ka, va⟩ := a
    simp only [List.map_cons, List.mem_cons] at h
    push_neg at h
    rw [lookup_cons]
    simp only [if_neg h.1]
    exact ih h.2

theorem mem_keys_dictInsert {d : List (String × α)} {k x : String} {v : α} :
    x ∈ (dictInsert k v d).map Prod.fst ↔ x = k ∨ x ∈ d.map Prod.fst := by
  induction d with
  | nil => simp [dictInsert]
  | cons a rest ih =>
    obtain ⟨ka, va⟩ := a
    by_cases hka : ka = k
    · subst hka
      simp only [dictInsert, if_pos]
      simp
    · simp only [dictInsert, if_neg hka, List.map_cons, List.mem_cons, ih]
      tauto

theorem nodup_keys_dictInsert {d : List (String × α)} (k : String) (v : α)
    (h : (d.map Prod.fst).Nodup) : ((dictInsert k v d).map Prod.fst).Nodup := by
  induction d with
  | nil => simp [dictInsert]
  | cons a rest ih =>
    obtain ⟨ka, va⟩ := a
    simp only [List.map_cons, List.nodup_cons] at h
    by_cases hka : ka = k
    · subst hka
      simp only [dictInsert, if_pos]
      simp only [List.map_cons, List.nodup_cons]
      exact h
    · simp only [dictInsert, if_neg hka, List.map_cons, List.nodup_cons]
      refine ⟨fun hmem => ?_, ih h.2⟩
      rcases mem_keys_dictInsert.mp hmem with h1 | h1
      · exact hka h1
      · exact h.1 h1

theorem keys_dictErase_sublist (k : String) (d : List (String × α)) :
    ((dictErase k d).map Prod.fst).Sublist (d.map Prod.fst) := by
  induction d with
  | nil => simp [dictErase]
  | cons a rest ih =>
    obtain ⟨ka, va⟩ := a
    by_cases hka : ka = k
    · simp only [dictErase, if_pos hka, List.map_cons]
      exact (List.sublist_cons_self _ _)
    · simp only [dictErase, if_neg hka, List.map_cons]
      exact ih.cons₂ ka

theorem dictGet_erase (k k' : String) (d : List (String × α))
    (h : (d.map Prod.fst).Nodup) :
    dictGet k' (dictErase k d) = if k' = k then none else dictGet k' d := by
  induction d with
  | nil => simp [dictErase, dictGet]
  | cons a rest ih =>
    obtain ⟨ka, va⟩ := a
    simp only [List.map_cons, List.nodup_cons] at h
    by_cases hka : ka = k
    · subst hka
      simp only [dictErase, if_pos]
      by_cases hk' : k' = ka
      · subst hk'
        simp [dictGet, lookup_eq_none_of_not_mem_keys h.1]
      · simp [hk', dictGet, lookup_cons]
    · simp only [dictErase, if_neg hka]
      by_cases hk' : k' = ka
      · subst hk'
        have hne : ¬ (k' = k) := hka
        simp [hne, dictGet, lookup_cons]
      · show dictGet k' ((ka, va) :: dictErase k rest) = _
        rw [show dictGet k' ((ka, va) :: dictErase k rest)
            = List.lookup k' ((ka, va) :: dictErase k rest) from rfl,
          lookup_cons, if_neg hk']
        rw [show List.lookup k' (dictErase k rest)
            = dictGet k' (dictErase k rest) from rfl, ih h.2]
        by_cases hk : k' = k <;> simp [hk, dictGet, lookup_cons, hk']

theorem find?_filter_of_imp (l : List α) (p q : α → Bool)
    (h : ∀ x, p x = true → q x = true) :
    (l.filter q).find? p = l.find? p := by
  induction l with
  | nil => rfl
  | cons a rest ih =>
    by_cases hq : q a = true
    · simp only [List.filter_cons, hq, if_pos]
      by_cases hp : p a = true
      · simp [List.find?, hp]
      · simp only [List.find?, hp]
        simpa [Bool.not_eq_true] using ih
    · have hp : p a = false := by
        by_contra hc
        exact hq (h a (by simpa using hc))
      have hq' : q a = false := by simpa using hq
      simp only [List.filter_cons, hq', Bool.false_eq_true, if_neg,
        not_false_iff]
      simp only [List.find?, hp]
      exact ih

theorem find?_append_eq (l₁ l₂ : List α) (p : α → Bool) :
    (l₁ ++ l₂).find? p =
      (match l₁.find? p with
       | some a => some a
       | none => l₂.find? p) := by
  induction l₁ with
  | nil => simp
  | cons a rest ih =>
    by_cases hp : p a = true
    · simp [List.find?, hp]
    · simp only [List.cons_append, List.find?,
        show p a = false by simpa using hp]
      exact ih

theorem inv_empty : EvidenceStore.empty.Inv := by
  refine ⟨by simp [EvidenceStore.empty, EvidenceStore.ofList],
    by simp [EvidenceStore.empty, EvidenceStore.ofList],
    fun evidence_id => rfl⟩

theorem inv_add (s : EvidenceStore) (e : AnyEvidence) (h : s.Inv) :
    (s.add e).Inv := by
  obtain ⟨hN, hK, hA⟩ := h
  by_cases hc : (dictGet e.evidence_id s._by_id).isSome = true
  · refine ⟨?_, ?_, ?_⟩
    · simp only [EvidenceStore.add, hc, if_pos, List.map_append]
      rw [List.nodup_append]
      refine ⟨((List.filter_sublist _).map _).nodup hN, by simp, ?_⟩
      intro x hx
      simp only [List.mem_map] at hx
      obtain ⟨a, ha, rfl⟩ := hx
      have := (List.mem_filter.mp ha).2
      simp only [List.map_cons, List.map_nil, List.mem_singleton]
      intro hcontra
      rw [hcontra] at this
      simp at this
    · simpa only [EvidenceStore.add] using
        nodup_keys_dictInsert e.evidence_id e hK
    · intro i
      simp only [EvidenceStore.add, hc, if_pos]
      rw [show dictGet i (dictInsert e.evidence_id e s._by_id) =
        if i = e.evidence_id then some e else dictGet i s._by_id from
        dictGet_insert _ _ _ _]
      rw [find?_append_eq]
      by_cases hi : i = e.evidence_id
      · have h1 : (s._evidence.filter
            (fun x => x.evidence_id ≠ e.evidence_id)).find?
            (fun x => x.evidence_id = i) = none := by
          rw [List.find?_eq_none]
          intro x hx
          have := (List.mem_filter.mp hx).2
          simp at this ⊢
          rw [hi]
          exact this
        rw [h1, if_pos hi]
        simp [List.find?, hi.symm]
      · rw [find?_filter_of_imp _ _ _
          (by intro x hx; simp at hx ⊢; simp [hx, hi])]
        rw [if_neg hi, hA i]
        have h3 : ¬ (e.evidence_id = i) := fun hh => hi hh.symm
        cases hfind : List.find? (fun x => decide (x.evidence_id = i))
            s._evidence with
        | none => simp [hfind, List.find?, h3]
        | some a => simp [hfind]
  · have hnone : dictGet e.evidence_id s._by_id = none :=
      Option.not_isSome_iff_eq_none.mp (by simpa using hc)
    have hfind : s._evidence.find?
        (fun x => x.evidence_id = e.evidence_id) = none := by
      rw [← hA]; exact hnone
    have hnotmem : ∀ x ∈ s._evidence, ¬ (x.evidence_id = e.evidence_id) := by
      intro x hx
      have := List.find?_eq_none.mp hfind x hx
      simpa using this
    refine ⟨?_, ?_, ?_⟩
    · simp only [EvidenceStore.add, hc, if_neg, Bool.false_eq_true,
        not_false_iff, List.map_append]
      rw [List.nodup_append]
      refine ⟨hN, by simp, ?_⟩
      intro x hx
      simp only [List.mem_map] at hx
      obtain ⟨a, ha, rfl⟩ := hx
      simp only [List.map_cons, List.map_nil, List.mem_singleton]
      exact fun hcontra => hnotmem a ha hcontra
    · simpa only [EvidenceStore.add] using
        nodup_keys_dictInsert e.evidence_id e hK
    · intro i
      simp only [EvidenceStore.add, hc, if_neg, Bool.false_eq_true,
        not_false_iff]
      rw [show dictGet i (dictInsert e.evidence_id e s._by_id) =
        if i = e.evidence_id then some e else dictGet i s._by_id from
        dictGet_insert _ _ _ _]
      rw [find?_append_eq]
      by_cases hi : i = e.evidence_id
      · rw [if_pos hi, hi, hfind]
        simp [List.find?]
      · rw [if_neg hi, hA i]
        have h3 : ¬ (e.evidence_id = i) := fun hh => hi hh.symm
        cases hfind2 : List.find? (fun x => decide (x.evidence_id = i))
            s._evidence with
        | none => simp [hfind2, List.find?, h3]
        | some a => simp [hfind2]

theorem inv_remove (s : EvidenceStore) (evidence_id : String) (h : s.Inv) :
    (s.remove evidence_id).1.Inv := by
  obtain ⟨hN, hK, hA⟩ := h
  by_cases hc : (dictGet evidence_id s._by_id).isSome = true
  · simp only [EvidenceStore.remove, hc, if_pos]
    refine ⟨((List.filter_sublist _).map _).nodup hN,
      (keys_dictErase_sublist _ _).nodup hK, ?_⟩
    intro i
    rw [dictGet_erase _ _ _ hK]
    by_cases hi : i = evidence_id
    · rw [if_pos hi]
      symm
      rw [List.find?_eq_none]
      intro x hx
      have := (List.mem_filter.mp hx).2
      simp at this ⊢
      rw [hi]
      exact this
    · rw [if_neg hi, hA i,
        find?_filter_of_imp _ _ _
          (by intro x hx; simp at hx ⊢; simp [hx, hi])]
  · simp only [EvidenceStore.remove, hc, if_neg, Bool.false_eq_true,
      not_false_iff]
    exact ⟨hN, hK, hA⟩

theorem inv_add_all (s : EvidenceStore) (l : List AnyEvidence) (h : s.Inv) :
    (s.add_all l).Inv := by
  induction l generalizing s with
  | nil => exact h
  | cons x xs ih =>
    simpa only [EvidenceStore.add_all, List.foldl_cons] using
      ih (s.add x) (inv_add s x h)

theorem inv_apply (s : EvidenceStore) (op : StoreOp) (h : s.Inv) :
    (StoreOp.apply s op).Inv := by
  cases op with
  | add e => exact inv_add s e h
  | add_all l => exact inv_add_all s l h
  | remove evidence_id => exact inv_remove s evidence_id h
  | clear => exact ⟨List.nodup_nil, List.nodup_nil, fun _ => rfl⟩
  | merge other => exact inv_add_all s other._evidence h

/-- C9 (Store index consistency, implicit): starting from an empty store,
after any sequence of `add`, `add_all`, `remove`, `clear` and `merge`
operations, no two records in `_evidence` share an `evidence_id`, and the
`_by_id` index resolves every id to exactly the record with that id in the
list (so `len`, membership, `get`, iteration and `filter` all describe the
same collection). -/
theorem store_index_consistency (ops : List StoreOp) :
    (((ops.foldl StoreOp.apply EvidenceStore.empty)._evidence.map
        AnyEvidence.evidence_id).Nodup) ∧
    (∀ evidence_id, (ops.foldl StoreOp.apply EvidenceStore.empty).get
        evidence_id =
      (ops.foldl StoreOp.apply EvidenceStore.empty)._evidence.find?
        (fun e => e.evidence_id = evidence_id)) := by
  have h : (ops.foldl StoreOp.apply EvidenceStore.empty).Inv := by
    have hgen : ∀ (l : List StoreOp) (s : EvidenceStore), s.Inv →
        (l.foldl StoreOp.apply s).Inv := by
      intro l
      induction l with
      | nil => exact fun s hs => hs
      | cons op rest ih =>
        intro s hs
        exact ih (StoreOp.apply s op) (inv_apply s op hs)
    exact hgen ops EvidenceStore.empty inv_empty
  exact ⟨h.1, fun i => h.2.2 i⟩

/-- C4 (Unknown source rejection): a record whose `verification.source`
is outside the recognized set for its root kind verifies invalid with the
unknown-source error, never valid.  For events the recognized set is
`{gharchive, git}`; for observations the strategy dict covers the whole
source enumeration, so no observation source is unrecognized. -/
theorem unknown_source_rejection (v : ConsistencyVerifier)
    (ev : AnyEvidence)
    (h : ev.verification.source ∉ ev.recognizedSources) :
    v.verify ev = ⟨false, [ev.unknownSourceMsg]⟩ := by
  cases ev with
  | event e =>
    simp only [AnyEvidence.recognizedSources, recognizedEventSources,
      AnyEvidence.verification, List.mem_cons, List.not_mem_nil,
      List.mem_singleton] at h
    push_neg at h
    simp [ConsistencyVerifier.verify, ConsistencyVerifier._verify_event,
      h.1, h.2.1, AnyEvidence.unknownSourceMsg]
  | observation o =>
    exfalso
    apply h
    cases hsrc : o.base.verification.source <;>
      simp [AnyEvidence.recognizedSources, recognizedObservationSources,
        AnyEvidence.verification, hsrc]

theorem unknown_source_rejection_witness :
    (AnyEvidence.event (.watch sampleGithubSourcedWatchEvent)).verification.source
        ∉ (AnyEvidence.event
          (.watch sampleGithubSourcedWatchEvent)).recognizedSources ∧
    failingVerifier.verify (.event (.watch sampleGithubSourcedWatchEvent))
      = ⟨false, [(AnyEvidence.event
          (.watch sampleGithubSourcedWatchEvent)).unknownSourceMsg]⟩ :=
  ⟨by decide,
   unknown_source_rejection failingVerifier
     (.event (.watch sampleGithubSourcedWatchEvent)) (by decide)⟩

/-- C3 counterexample: a deleted wayback-sourced observation whose URL
fetch raises a network failure verifies INVALID — the URL-reachability
strategy catches the failure internally and reports it without consulting
`is_deleted`, contradicting the claim for that recognized source. -/
theorem deletion_tolerance_counterexample :
    sampleDeletedWaybackSnapshot.toObservation.is_deleted = true ∧
    sampleDeletedWaybackSnapshot.toObservation.verification.source
      = .wayback ∧
    failingVerifier.verify
        (.observation (.snapshot sampleDeletedWaybackSnapshot))
      = ⟨false, ["Failed to access URL: connection refused"]⟩ :=
  ⟨rfl, rfl, rfl⟩

/-- C3 (Deletion tolerance, amended): the `is_deleted` override applies to
observations verified through the primary-API (`github`) source — whenever
the selected per-type strategy raises a fetch failure and the record is
marked deleted, the outcome is success with no errors.  (For the
web-archive and security-vendor sources the fetch failure is caught inside
the leaf strategy and reported as an error regardless of `is_deleted`.) -/
theorem deletion_tolerance_github (v : ConsistencyVerifier)
    (o : AnyObservation) (err : NetError)
    (hsrc : o.base.verification.source = .github)
    (hdel : o.base.is_deleted = true)
    (hraise : v._verify_github_strategy o = .error err) :
    v.verify (.observation o) = ⟨true, []⟩ := by
  simp [ConsistencyVerifier.verify, ConsistencyVerifier._verify_observation,
    hsrc, ConsistencyVerifier._verify_github_observation, hraise, hdel]

theorem deletion_tolerance_github_witness :
    sampleDeletedCommit.toObservation.verification.source = .github ∧
    sampleDeletedCommit.toObservation.is_deleted = true ∧
    failingVerifier._verify_github_strategy (.commit sampleDeletedCommit)
      = .error "404 Client Error" ∧
    failingVerifier.verify (.observation (.commit sampleDeletedCommit))
      = ⟨true, []⟩ :=
  ⟨rfl, rfl, rfl,
   deletion_tolerance_github failingVerifier (.commit sampleDeletedCommit)
     "404 Client Error" rfl rfl rfl⟩

/-- C10 (Absent-URL pass-through, implicit): an observation dispatched to
the URL-reachability strategy — the web-archive source, or the primary-API
source with observation type `fork`, `snapshot`, `ioc` or `article` —
whose `verification.url` is absent verifies valid with no errors; the
conclusion holds for EVERY verifier (every network oracle), so no network
check is performed. -/
theorem absent_url_pass_through (v : ConsistencyVerifier)
    (o : AnyObservation)
    (hurl : o.base.verification.url = none)
    (hsrc : o.base.verification.source = .wayback ∨
      (o.base.verification.source = .github ∧
        o.observation_type ∈ ["fork", "snapshot", "ioc", "article"])) :
    v.verify (.observation o) = ⟨true, []⟩ := by
  rcases hsrc with hsrc | ⟨hsrc, hty⟩
  · simp [ConsistencyVerifier.verify,
      ConsistencyVerifier._verify_observation, hsrc,
      ConsistencyVerifier._verify_url_accessible, hurl]
  · cases o <;> simp [AnyObservation.observation_type] at hty <;>
      simp only [AnyObservation.base] at hsrc hurl <;>
      simp [ConsistencyVerifier.verify,
        ConsistencyVerifier._verify_observation, AnyObservation.base, hsrc,
        ConsistencyVerifier._verify_github_observation,
        ConsistencyVerifier._verify_github_strategy,
        ConsistencyVerifier._verify_url_accessible, hurl]

theorem absent_url_pass_through_witness :
    sampleUrllessGithubIOC.toObservation.verification.url = none ∧
    (sampleUrllessGithubIOC.toObservation.verification.source
        = EvidenceSource.wayback ∨
      (sampleUrllessGithubIOC.toObservation.verification.source
          = EvidenceSource.github ∧
        (AnyObservation.ioc sampleUrllessGithubIOC).observation_type
          ∈ ["fork", "snapshot", "ioc", "article"])) ∧
    failingVerifier.verify (.observation (.ioc sampleUrllessGithubIOC))
      = ⟨true, []⟩ :=
  ⟨rfl, Or.inr ⟨rfl, by decide⟩,
   absent_url_pass_through failingVerifier (.ioc sampleUrllessGithubIOC)
     rfl (Or.inr ⟨rfl, by decide⟩)⟩

theorem verify_all_foldl (v : ConsistencyVerifier)
    (l : List AnyEvidence) (b : Bool) (acc : List String) :
    l.foldl
      (fun (acc : Bool × List String) evidence =>
        let result := v.verify evidence
        if result.is_valid then acc
        else
          (false,
            acc.2 ++ result.errors.map
              (fun e => "[" ++ evidence.evidence_id ++ "] " ++ e)))
      (b, acc) =
    (b && l.all (fun e => (v.verify e).is_valid),
     acc ++ l.flatMap (fun e =>
       if (v.verify e).is_valid then []
       else (v.verify e).errors.map
         (fun msg => "[" ++ e.evidence_id ++ "] " ++ msg))) := by
  induction l generalizing b acc with
  | nil => simp
  | cons x xs ih =>
    by_cases hx : (v.verify x).is_valid = true
    · simp only [List.foldl_cons, hx, if_pos, List.all_cons, List.flatMap_cons]
      rw [ih]
      simp [hx]
    · have hx' : (v.verify x).is_valid = false := by simpa using hx
      simp only [List.foldl_cons, hx', Bool.false_eq_true, if_neg,
        not_false_iff, List.all_cons, List.flatMap_cons]
      rw [ih]
      simp [hx', List.append_assoc]

/-- C5 (verify_all aggregation): `verify_all` is valid iff no record's
individual verification failed; its error list is, in collection order,
the errors of exactly the failing records, each line tagged with that
record's `evidence_id`; a fully passing run yields an empty error list
(valid records' note lines are dropped). -/
theorem verify_all_aggregation (v : ConsistencyVerifier)
    (l : List AnyEvidence) :
    v.verify_all l =
      ⟨l.all (fun e => (v.verify e).is_valid),
       l.flatMap (fun e =>
         if (v.verify e).is_valid then []
         else (v.verify e).errors.map
           (fun msg => "[" ++ e.evidence_id ++ "] " ++ msg))⟩ ∧
    ((v.verify_all l).is_valid = true ↔
      ∀ e ∈ l, (v.verify e).is_valid = true) ∧
    ((∀ e ∈ l, (v.verify e).is_valid = true) →
      (v.verify_all l).errors = []) := by
  have hmain : v.verify_all l =
      ⟨l.all (fun e => (v.verify e).is_valid),
       l.flatMap (fun e =>
         if (v.verify e).is_valid then []
         else (v.verify e).errors.map
           (fun msg => "[" ++ e.evidence_id ++ "] " ++ msg))⟩ := by
    unfold ConsistencyVerifier.verify_all
    rw [verify_all_foldl]
    simp
  refine ⟨hmain, ?_, ?_⟩
  · rw [hmain]
    simp [List.all_eq_true]
  · intro hall
    rw [hmain]
    simp only [VerificationResult.mk.injEq]
    rw [List.flatMap_eq_nil_iff]
    intro e he
    simp [hall e he]

/-- C7 (Filter timestamp priority): under after/before range bounds, an
Observation with `original_when` set is ranged by `original_when` — its
membership in the filter result depends only on that instant, never on
`observed_when` — and an Event is ranged by `when`. -/
theorem filter_timestamp_priority (s : EvidenceStore) (a b : DateTime)
    (o : AnyObservation) (t : DateTime) (e : AnyEvent)
    (hts : o.base.original_when = some t) :
    ((AnyEvidence.observation o)
        ∈ s.filter { after := some a, before := some b } ↔
      (AnyEvidence.observation o) ∈ s._evidence ∧ a ≤ t ∧ t ≤ b) ∧
    ((AnyEvidence.event e)
        ∈ s.filter { after := some a, before := some b } ↔
      (AnyEvidence.event e) ∈ s._evidence ∧
        a ≤ e.base.when ∧ e.base.when ≤ b) := by
  constructor
  · rw [EvidenceStore.filter, List.mem_filter]
    simp [FilterCriteria.matches, strTruthy, EvidenceStore.get_timestamp,
      hts, not_lt, and_assoc]
  · rw [EvidenceStore.filter, List.mem_filter]
    simp [FilterCriteria.matches, strTruthy, EvidenceStore.get_timestamp,
      not_lt, and_assoc]

theorem filter_timestamp_priority_witness :
    (AnyObservation.issue sampleTwoTimestampIssue).base.original_when
      = some 10 ∧
    (((AnyEvidence.observation (.issue sampleTwoTimestampIssue))
        ∈ sampleStore.filter { after := some 0, before := some 20 } ↔
      (AnyEvidence.observation (.issue sampleTwoTimestampIssue))
          ∈ sampleStore._evidence ∧ (0 : Int) ≤ 10 ∧ (10 : Int) ≤ 20) ∧
    ((AnyEvidence.event (.watch sampleGitSourcedWatchEvent))
        ∈ sampleStore.filter { after := some 0, before := some 20 } ↔
      (AnyEvidence.event (.watch sampleGitSourcedWatchEvent))
          ∈ sampleStore._evidence ∧
        (0 : Int) ≤ (AnyEvent.watch sampleGitSourcedWatchEvent).base.when ∧
        (AnyEvent.watch sampleGitSourcedWatchEvent).base.when ≤ 20)) :=
  ⟨rfl,
   filter_timestamp_priority sampleStore 0 20
     (.issue sampleTwoTimestampIssue) 10
     (.watch sampleGitSourcedWatchEvent) rfl⟩

/-- C6 (Deserialization error handling): `load_evidence_from_json` raises
a hard error for input carrying neither discriminator key; an input whose
`event_type` (resp. `observation_type`, when no `event_type` is present)
value is a string outside the recognized tag set fails with an error
naming that tag, never coercing to a default type. -/
theorem deserialization_error_handling :
    (∀ d : List (String × Json),
      Json.get d "event_type" = none →
      Json.get d "observation_type" = none →
      load_evidence_from_json d =
        .error "Data must contain 'event_type' or 'observation_type' field") ∧
    (∀ (d : List (String × Json)) (t : String),
      Json.get d "event_type" = some (.str t) →
      t ∉ recognizedEventTags →
      load_evidence_from_json d = .error ("Unknown event_type: " ++ t)) ∧
    (∀ (d : List (String × Json)) (t : String),
      Json.get d "event_type" = none →
      Json.get d "observation_type" = some (.str t) →
      t ∉ recognizedObservationTags →
      load_evidence_from_json d =
        .error ("Unknown observation_type: " ++ t)) := by
  refine ⟨?_, ?_, ?_⟩
  · intro d h1 h2
    simp [load_evidence_from_json, h1, h2]
  · intro d t h1 hmem
    simp only [recognizedEventTags, List.mem_cons, List.not_mem_nil,
      or_false] at hmem
    push_neg at hmem
    obtain ⟨n1, n2, n3, n4, n5, n6, n7, n8, n9, n10, n11, n12⟩ := hmem
    simp [load_evidence_from_json, eventAdapterValidate, h1, Json.pyRender,
      n1, n2, n3, n4, n5, n6, n7, n8, n9, n10, n11, n12]
  · intro d t h1 h2 hmem
    simp only [recognizedObservationTags, List.mem_cons, List.not_mem_nil,
      or_false] at hmem
    push_neg at hmem
    obtain ⟨n1, n2, n3, n4, n5, n6, n7, n8, n9, n10⟩ := hmem
    simp [load_evidence_from_json, observationAdapterValidate, h1, h2,
      Json.pyRender, n1, n2, n3, n4, n5, n6, n7, n8, n9, n10]

theorem deserialization_error_handling_witness :
    (Json.get [("foo", Json.str "x")] "event_type" = none ∧
      Json.get [("foo", Json.str "x")] "observation_type" = none ∧
      load_evidence_from_json [("foo", Json.str "x")] =
        .error "Data must contain 'event_type' or 'observation_type' field") ∧
    (Json.get [("event_type", Json.str "nonsense")] "event_type"
        = some (.str "nonsense") ∧
      "nonsense" ∉ recognizedEventTags ∧
      load_evidence_from_json [("event_type", Json.str "nonsense")] =
        .error "Unknown event_type: nonsense") ∧
    (Json.get [("observation_type", Json.str "bogus")] "event_type"
        = none ∧
      Json.get [("observation_type", Json.str "bogus")] "observation_type"
        = some (.str "bogus") ∧
      "bogus" ∉ recognizedObservationTags ∧
      load_evidence_from_json [("observation_type", Json.str "bogus")] =
        .error "Unknown observation_type: bogus") :=
  ⟨⟨rfl, rfl,
    deserialization_error_handling.1 [("foo", Json.str "x")] rfl rfl⟩,
   ⟨rfl, by decide,
    deserialization_error_handling.2.1 [("event_type", Json.str "nonsense")]
      "nonsense" rfl (by decide)⟩,
   ⟨rfl, rfl, by decide,
    deserialization_error_handling.2.2 [("observation_type", Json.str "bogus")]
      "bogus" rfl rfl (by decide)⟩⟩

/-- C8 counterexample: construction succeeds for a 40-character sha made
entirely of non-hex characters, so a successfully constructed
`CommitObservation` need NOT have a hex sha — only the length is
validated. -/
theorem commit_sha_hex_counterexample :
    CommitObservation.construct sampleNonHexCommit.toObservation
        "zzzzzzzzzzzzzzzzzzzzzzzzzzzzzzzzzzzzzzzz" "m"
        sampleNonHexCommit.author sampleNonHexCommit.committer [] [] false
      = .ok sampleNonHexCommit ∧
    sampleNonHexCommit.sha.val.data.all isHexChar = false := by
  constructor
  · rfl
  · decide

/-- C8 (Commit hash validation, amended): every successfully constructed
or deserialized `CommitObservation` has a sha of length exactly 40 —
hex-ness is not validated — and construction fails fast for a sha of any
other length with a pydantic error naming the `sha` field. -/
theorem commit_sha_length_validation (base : Observation)
    (sha message : String) (author committer : CommitAuthor)
    (parents : List String) (files : List FileChange) (is_dangling : Bool) :
    (∀ c, CommitObservation.construct base sha message author committer
        parents files is_dangling = .ok c →
      c.sha.val = sha ∧ c.sha.val.length = 40) ∧
    (sha.length ≠ 40 →
      CommitObservation.construct base sha message author committer parents
          files is_dangling =
        .error (if sha.length < 40 then
            "sha: String should have at least 40 characters"
          else "sha: String should have at most 40 characters")) ∧
    (∀ (d : List (String × Json)) (c : CommitObservation),
      load_evidence_from_json d = .ok (.observation (.commit c)) →
      c.sha.val.length = 40) := by
  refine ⟨?_, ?_, fun d c _ => c.sha.property⟩
  · intro c hc
    by_cases h : sha.length = 40
    · rw [CommitObservation.construct, dif_pos h] at hc
      cases hc
      exact ⟨rfl, h⟩
    · rw [CommitObservation.construct, dif_neg h] at hc
      split at hc <;> cases hc
  · intro h
    rw [CommitObservation.construct, dif_neg h]
    split <;> simp_all

theorem commit_sha_length_validation_witness :
    ("abc".length ≠ 40 ∧
      CommitObservation.construct sampleNonHexCommit.toObservation "abc" "m"
          sampleNonHexCommit.author sampleNonHexCommit.committer [] [] false
        = .error "sha: String should have at least 40 characters") ∧
    (load_evidence_from_json
        (AnyEvidence.observation (.commit sampleNonHexCommit)).dumpDict
        = .ok (.observation (.commit sampleNonHexCommit)) →
      sampleNonHexCommit.sha.val.length = 40) :=
  ⟨⟨by decide, by
      have := (commit_sha_length_validation
        sampleNonHexCommit.toObservation "abc" "m" sampleNonHexCommit.author
        sampleNonHexCommit.committer [] [] false).2.1 (by decide)
      simpa using this⟩,
   fun h => (commit_sha_length_validation sampleNonHexCommit.toObservation
     "abc" "m" sampleNonHexCommit.author sampleNonHexCommit.committer [] []
     false).2.2 _ _ h⟩
